import Mathlib

/-!
Verification of the answer-resolution pipeline of `chatbot.py` (a Spanish
football question-answering service).  The Python source is shallowly
embedded: pure functions become Lean functions over `String` / `List Char`
and exact rationals (`ℚ`) in place of IEEE floats; the external Supabase
data store becomes a structure of `Except`-valued table accessors, so a
store error raised inside a stage is an `Except.error` that propagates
exactly where a Python exception would; Python's `KeyError` on a missing
dict key is modelled the same way.

Unicode is modelled on the repertoire the program actually uses: ASCII plus
the Spanish accented letters.  `str.lower` becomes a table of
uppercase→lowercase pairs (identity elsewhere), `unicodedata.normalize("NFD", ·)`
becomes a table of canonical decompositions (identity elsewhere), and
category `Mn` becomes membership in the list of combining marks produced by
those decompositions.  `str.strip` trims the same whitespace characters
`Char.isWhitespace` recognises.
-/

namespace Chatbot

/-- Uppercase→lowercase table modelling `str.lower` on the repertoire used
by the program (ASCII letters and Spanish accented capitals). -/
def lowerPairs : List (Char × Char) :=
  [('A','a'),('B','b'),('C','c'),('D','d'),('E','e'),('F','f'),('G','g'),
   ('H','h'),('I','i'),('J','j'),('K','k'),('L','l'),('M','m'),('N','n'),
   ('O','o'),('P','p'),('Q','q'),('R','r'),('S','s'),('T','t'),('U','u'),
   ('V','v'),('W','w'),('X','x'),('Y','y'),('Z','z'),
   ('Á','á'),('É','é'),('Í','í'),('Ó','ó'),('Ú','ú'),('Ü','ü'),('Ñ','ñ')]

/-- Canonical (NFD) decomposition table for the accented letters used by the
program: base letter followed by a combining mark. -/
def decompPairs : List (Char × List Char) :=
  [('á', ['a', '́']), ('é', ['e', '́']), ('í', ['i', '́']),
   ('ó', ['o', '́']), ('ú', ['u', '́']), ('ü', ['u', '̈']),
   ('ñ', ['n', '̃']),
   ('Á', ['A', '́']), ('É', ['E', '́']), ('Í', ['I', '́']),
   ('Ó', ['O', '́']), ('Ú', ['U', '́']), ('Ü', ['U', '̈']),
   ('Ñ', ['N', '̃'])]

/-- Combining marks (Unicode category `Mn`) occurring in the decompositions. -/
def mnChars : List Char := ['̀', '́', '̃', '̈']

/-- The lowercase accented characters; used to state which `STAT_MAP` keys
and entity names carry diacritics. -/
def accChars : List Char := ['á', 'é', 'í', 'ó', 'ú', 'ü', 'ñ']

def lowerChar (c : Char) : Char := (lowerPairs.lookup c).getD c

def decompChar (c : Char) : List Char := (decompPairs.lookup c).getD [c]

def isMn (c : Char) : Bool := decide (c ∈ mnChars)

def ws (c : Char) : Bool := c.isWhitespace

/-- `str.strip`: drop whitespace from both ends. -/
def trimList (l : List Char) : List Char :=
  List.rdropWhile ws (List.dropWhile ws l)

/-- The per-string body of `normalize` before the final strip: lowercase,
NFD-decompose, drop combining marks.  Mirrors
`"".join(c for c in unicodedata.normalize("NFD", text.lower()) if unicodedata.category(c) != "Mn")`. -/
def cleanChars (l : List Char) : List Char :=
  ((l.map lowerChar).flatMap decompChar).filter (fun c => !isMn c)

/-- `normalize(text)` from `chatbot.py`: lowercase, NFD decomposition,
removal of combining marks, then strip. -/
def normalize (s : String) : String :=
  String.mk (trimList (cleanChars s.data))

/-- `str.lower()` alone (several matchers lowercase without stripping accents). -/
def strLower (s : String) : String := String.mk (s.data.map lowerChar)

/-- Python's substring test `needle in hay`. -/
def strIn (needle hay : String) : Bool :=
  hay.data.tails.any (fun t => needle.data.isPrefixOf t)

/-- Characters that can appear in the output of `cleanChars`: fixed by
lowercasing, with trivial decomposition, not combining marks, and accent-free. -/
def GoodChar (c : Char) : Prop :=
  lowerChar c = c ∧ decompChar c = [c] ∧ isMn c = false ∧ c ∉ accChars

instance (c : Char) : Decidable (GoodChar c) := by
  unfold GoodChar; infer_instance

lemma lookup_mem {α β : Type} [BEq α] [LawfulBEq α] {a : α} {b : β} :
    ∀ {l : List (α × β)}, l.lookup a = some b → (a, b) ∈ l := by
  intro l
  induction l with
  | nil => intro h; simp [List.lookup] at h
  | cons p rest ih =>
      intro h
      obtain ⟨k, v⟩ := p
      simp only [List.lookup] at h
      split at h
      · next hbeq =>
          cases h
          have hak : a = k := eq_of_beq hbeq
          subst hak
          exact List.mem_cons_self _ _
      · exact List.mem_cons_of_mem _ (ih h)

lemma lowerPairs_good :
    ∀ p ∈ lowerPairs, ∀ d ∈ (decompChar p.2).filter (fun x => !isMn x), GoodChar d := by
  decide

lemma decompPairs_good :
    ∀ p ∈ decompPairs, lowerPairs.lookup p.1 = none →
      ∀ d ∈ (p.2.filter (fun x => !isMn x)), GoodChar d := by
  decide

lemma accChars_decomp : ∀ a ∈ accChars, (decompPairs.lookup a).isSome = true := by
  decide

/-- Every character surviving the lowercase/decompose/filter pipeline applied
to a single character is a `GoodChar`. -/
lemma out_good (c : Char) :
    ∀ d ∈ (decompChar (lowerChar c)).filter (fun x => !isMn x), GoodChar d := by
  intro d hd
  cases hl : lowerPairs.lookup c with
  | some v =>
      have hv : (c, v) ∈ lowerPairs := lookup_mem hl
      have : lowerChar c = v := by unfold lowerChar; rw [hl]; rfl
      rw [this] at hd
      exact lowerPairs_good (c, v) hv d hd
  | none =>
      have hlc : lowerChar c = c := by unfold lowerChar; rw [hl]; rfl
      rw [hlc] at hd
      cases hdec : decompPairs.lookup c with
      | some ds =>
          have hv : (c, ds) ∈ decompPairs := lookup_mem hdec
          have : decompChar c = ds := by unfold decompChar; rw [hdec]; rfl
          rw [this] at hd
          exact decompPairs_good (c, ds) hv hl d hd
      | none =>
          have hdc : decompChar c = [c] := by unfold decompChar; rw [hdec]; rfl
          rw [hdc] at hd
          rcases List.mem_filter.mp hd with ⟨hmem, hmn⟩
          have hdceq : d = c := List.mem_singleton.mp hmem
          subst hdceq
          refine ⟨hlc, hdc, ?_, ?_⟩
          · simpa using hmn
          · intro hacc
            have := accChars_decomp d hacc
            rw [hdec] at this
            simp at this

/-- Every character of `cleanChars l` is good. -/
lemma cleanChars_good (l : List Char) : ∀ d ∈ cleanChars l, GoodChar d := by
  intro d hd
  unfold cleanChars at hd
  rcases List.mem_filter.mp hd with ⟨hflat, hmn⟩
  rcases List.mem_flatMap.mp hflat with ⟨y, hy, hdy⟩
  rcases List.mem_map.mp hy with ⟨c, _, hc⟩
  subst hc
  exact out_good c d (List.mem_filter.mpr ⟨hdy, hmn⟩)

lemma trimList_subset (l : List Char) : trimList l ⊆ l := by
  unfold trimList
  intro x hx
  have h1 : List.rdropWhile ws (List.dropWhile ws l) <+: List.dropWhile ws l :=
    List.rdropWhile_prefix ws _
  have h2 : List.dropWhile ws l <:+ l := List.dropWhile_suffix ws
  exact h2.subset (h1.subset hx)

/-- Every character of `normalize s` is good: lower-fixed, decomposition-trivial,
not a combining mark, and accent-free. -/
lemma normalize_good (s : String) : ∀ d ∈ (normalize s).data, GoodChar d := by
  intro d hd
  unfold normalize at hd
  exact cleanChars_good s.data d (trimList_subset _ hd)

lemma dropWhile_trimList (l : List Char) :
    List.dropWhile ws (trimList l) = trimList l := by
  unfold trimList
  set m := List.dropWhile ws l with hm
  have hpre : List.rdropWhile ws m <+: m := List.rdropWhile_prefix ws m
  obtain ⟨r, hr⟩ := hpre
  have hmfix : List.dropWhile ws m = m := List.dropWhile_idempotent ws l
  cases ht : List.rdropWhile ws m with
  | nil => rfl
  | cons x xs =>
      have hm2 : m = x :: (xs ++ r) := by rw [← hr, ht]; rfl
      have hxfalse : ws x = false := by
        cases hws : ws x with
        | false => rfl
        | true =>
            exfalso
            have hstep : List.dropWhile ws m = List.dropWhile ws (xs ++ r) := by
              rw [hm2]
              simp [List.dropWhile_cons, hws]
            have hlen := congrArg List.length (hmfix.symm.trans hstep)
            have hle := (List.dropWhile_suffix (l := xs ++ r) ws).sublist.length_le
            rw [hm2] at hlen
            simp only [List.length_cons, List.length_append] at hlen hle
            omega
      simp [List.dropWhile_cons, hxfalse]

lemma trimList_idem (l : List Char) : trimList (trimList l) = trimList l := by
  conv_lhs => rw [trimList, dropWhile_trimList]
  show List.rdropWhile ws (List.rdropWhile ws (List.dropWhile ws l)) = _
  rw [List.rdropWhile_idempotent]
  rfl

lemma flatMap_singleton_of {α : Type} {f : α → List α} :
    ∀ {l : List α}, (∀ x ∈ l, f x = [x]) → l.flatMap f = l := by
  intro l
  induction l with
  | nil => intro _; rfl
  | cons x xs ih =>
      intro h
      rw [List.flatMap_cons, h x (List.mem_cons_self _ _),
        ih (fun y hy => h y (List.mem_cons_of_mem _ hy))]
      rfl

lemma cleanChars_fixed {l : List Char} (h : ∀ c ∈ l, GoodChar c) :
    cleanChars l = l := by
  unfold cleanChars
  rw [List.map_congr_left (fun a ha => (h a ha).1), List.map_id']
  rw [flatMap_singleton_of (fun x hx => (h x hx).2.1)]
  rw [List.filter_eq_self.mpr]
  intro a ha
  rw [(h a ha).2.2.1]
  rfl

/-- C9 — `normalize` is idempotent: `normalize(normalize(t)) == normalize(t)`
for every text `t`. -/
theorem normalize_idempotent (t : String) : normalize (normalize t) = normalize t := by
  show String.mk (trimList (cleanChars (normalize t).data)) = normalize t
  rw [cleanChars_fixed (normalize_good t)]
  show String.mk (trimList (trimList (cleanChars t.data))) = _
  rw [trimList_idem]
  rfl

lemma strIn_iff_sub (n h : String) : strIn n h = true ↔ n.data <:+: h.data := by
  unfold strIn
  rw [List.any_eq_true]
  constructor
  · rintro ⟨t, ht, hpre⟩
    exact List.infix_iff_prefix_suffix.mpr
      ⟨t, List.isPrefixOf_iff_prefix.mp hpre, (List.mem_tails _ _).mp ht⟩
  · intro hinf
    rcases List.infix_iff_prefix_suffix.mp hinf with ⟨t, hpre, hsuf⟩
    exact ⟨t, (List.mem_tails _ _).mpr hsuf, List.isPrefixOf_iff_prefix.mpr hpre⟩

lemma strLower_of_good {s : String} (h : ∀ c ∈ s.data, GoodChar c) :
    strLower s = s := by
  unfold strLower
  rw [List.map_congr_left (fun a ha => (h a ha).1), List.map_id']

lemma strLower_normalize (s : String) : strLower (normalize s) = normalize s :=
  strLower_of_good (normalize_good s)

/-- A needle containing an accented character is never a substring of a
normalized question. -/
lemma strIn_acc_normalize_false {needle : String} {c : Char}
    (hc : c ∈ needle.data) (hacc : c ∈ accChars) (q : String) :
    strIn needle (normalize q) = false := by
  cases hb : strIn needle (normalize q) with
  | false => rfl
  | true =>
      exfalso
      have hinf := (strIn_iff_sub _ _).mp hb
      have hmem : c ∈ (normalize q).data := hinf.subset hc
      exact (normalize_good q c hmem).2.2.2 hacc

/-! ## Cosine similarity and the semantic retrieval engine

IEEE floats are modelled by exact numbers.  A similarity value
`dot/(na*nb)` (with `na = sqrt(Σa²) or 1e-10`, likewise `nb`) is kept as the
exact pair `(dot, (na*nb)²) : ℚ × ℚ` whose second component is positive;
its real value is `dot / √((na*nb)²)`, and comparisons on such pairs are
decided exactly by cross-multiplying squares. -/

def eps : ℚ := 1 / 10000000000

def sumSq (l : List ℚ) : ℚ := (l.map (fun x => x * x)).sum

/-- `sum(x*y for x,y in zip(a,b))` — note `zip` silently truncates to the
shorter list. -/
def dotQ (a b : List ℚ) : ℚ := ((a.zip b).map (fun p => p.1 * p.2)).sum

def cosPair (a b : List ℚ) : ℚ × ℚ :=
  (dotQ a b,
    (if sumSq a = 0 then eps ^ 2 else sumSq a) *
    (if sumSq b = 0 then eps ^ 2 else sumSq b))

lemma sumSq_nonneg (l : List ℚ) : 0 ≤ sumSq l := by
  apply List.sum_nonneg
  intro x hx
  rcases List.mem_map.mp hx with ⟨y, _, hy⟩
  subst hy
  exact mul_self_nonneg y

lemma floored_pos (l : List ℚ) : 0 < (if sumSq l = 0 then eps ^ 2 else sumSq l) := by
  split
  · norm_num [eps]
  · next h => exact lt_of_le_of_ne (sumSq_nonneg l) (Ne.symm h)

lemma cosPair_pos (a b : List ℚ) : 0 < (cosPair a b).2 := by
  unfold cosPair
  dsimp only
  exact mul_pos (floored_pos a) (floored_pos b)

def Score : Type := {s : ℚ × ℚ // 0 < s.2}

instance : DecidableEq Score := by unfold Score; infer_instance

def cosineScore (a b : List ℚ) : Score := ⟨cosPair a b, cosPair_pos a b⟩

/-- The real similarity value represented by a score pair. -/
noncomputable def scoreVal (s : Score) : ℝ := (s.1.1 : ℝ) / Real.sqrt (s.1.2 : ℝ)

/-- `cosine_similarity(a, b)` from `chatbot.py`:
`dot/(na*nb)` with `na = math.sqrt(sum(x*x for x in a)) or 1e-10` (and `nb`
alike): a zero norm is replaced by `1e-10`. -/
noncomputable def cosine_similarity (a b : List ℚ) : ℝ :=
  (if Real.sqrt ((sumSq a : ℚ) : ℝ) = 0 then ((eps : ℚ) : ℝ)
    else Real.sqrt ((sumSq a : ℚ) : ℝ)) *
  (if Real.sqrt ((sumSq b : ℚ) : ℝ) = 0 then ((eps : ℚ) : ℝ)
    else Real.sqrt ((sumSq b : ℚ) : ℝ)) |> fun nanb => ((dotQ a b : ℚ) : ℝ) / nanb

lemma sqrt_floored (x : ℚ) (hx : 0 ≤ x) :
    Real.sqrt (((if x = 0 then eps ^ 2 else x : ℚ)) : ℝ) =
      (if Real.sqrt ((x : ℚ) : ℝ) = 0 then ((eps : ℚ) : ℝ) else Real.sqrt ((x : ℚ) : ℝ)) := by
  by_cases h : x = 0
  · subst h
    rw [if_pos rfl, if_pos (by simp)]
    rw [show (((eps ^ 2 : ℚ)) : ℝ) = ((eps : ℚ) : ℝ) ^ 2 by push_cast; ring]
    exact Real.sqrt_sq (by norm_num [eps])
  · rw [if_neg h, if_neg]
    have hx2 : (0 : ℝ) < (x : ℝ) := by
      exact_mod_cast lt_of_le_of_ne hx (Ne.symm h)
    have := Real.sqrt_pos.mpr hx2
    exact ne_of_gt this

/-- The exact score pair represents exactly the source's similarity value. -/
lemma scoreVal_cosineScore (a b : List ℚ) :
    scoreVal (cosineScore a b) = cosine_similarity a b := by
  unfold scoreVal cosineScore cosine_similarity cosPair
  dsimp only
  rw [show (((if sumSq a = 0 then eps ^ 2 else sumSq a) *
      (if sumSq b = 0 then eps ^ 2 else sumSq b) : ℚ) : ℝ) =
      (((if sumSq a = 0 then eps ^ 2 else sumSq a) : ℚ) : ℝ) *
      (((if sumSq b = 0 then eps ^ 2 else sumSq b) : ℚ) : ℝ) by push_cast; ring]
  rw [Real.sqrt_mul (by exact_mod_cast (floored_pos a).le)]
  rw [sqrt_floored _ (sumSq_nonneg a), sqrt_floored _ (sumSq_nonneg b)]

/-- Exact decidable comparison of two score values. -/
def scoreLeB (s t : Score) : Bool :=
  if s.1.1 < 0 then
    (if t.1.1 < 0 then decide (t.1.1 ^ 2 * s.1.2 ≤ s.1.1 ^ 2 * t.1.2) else true)
  else
    (if t.1.1 < 0 then false else decide (s.1.1 ^ 2 * t.1.2 ≤ t.1.1 ^ 2 * s.1.2))

lemma scoreLeB_iff (s t : Score) : scoreLeB s t = true ↔ scoreVal s ≤ scoreVal t := by
  obtain ⟨⟨a, p⟩, hp⟩ := s
  obtain ⟨⟨b, q⟩, hq⟩ := t
  simp only at hp hq
  have hpR : (0 : ℝ) < (p : ℝ) := by exact_mod_cast hp
  have hqR : (0 : ℝ) < (q : ℝ) := by exact_mod_cast hq
  have hps : 0 < Real.sqrt (p : ℝ) := Real.sqrt_pos.mpr hpR
  have hqs : 0 < Real.sqrt (q : ℝ) := Real.sqrt_pos.mpr hqR
  have hp2 : Real.sqrt (p : ℝ) ^ 2 = (p : ℝ) := Real.sq_sqrt hpR.le
  have hq2 : Real.sqrt (q : ℝ) ^ 2 = (q : ℝ) := Real.sq_sqrt hqR.le
  have key : scoreVal ⟨(a, p), hp⟩ ≤ scoreVal ⟨(b, q), hq⟩ ↔
      (a : ℝ) * Real.sqrt (q : ℝ) ≤ (b : ℝ) * Real.sqrt (p : ℝ) := by
    unfold scoreVal
    exact div_le_div_iff₀ hps hqs
  rw [key]
  unfold scoreLeB
  dsimp only
  by_cases ha : a < 0
  · rw [if_pos ha]
    by_cases hb : b < 0
    · rw [if_pos hb]
      have haR : (a : ℝ) < 0 := by exact_mod_cast ha
      have hbR : (b : ℝ) < 0 := by exact_mod_cast hb
      have hstep : (a : ℝ) * Real.sqrt (q : ℝ) ≤ (b : ℝ) * Real.sqrt (p : ℝ) ↔
          (-(b : ℝ)) * Real.sqrt (p : ℝ) ≤ (-(a : ℝ)) * Real.sqrt (q : ℝ) := by
        constructor <;> intro h <;> nlinarith
      rw [hstep]
      rw [← pow_le_pow_iff_left₀ (a := (-(b : ℝ)) * Real.sqrt (p : ℝ))
        (by nlinarith) (by nlinarith) (two_ne_zero)]
      rw [mul_pow, mul_pow, hp2, hq2]
      rw [decide_eq_true_iff]
      constructor <;> intro h
      · have hQ : ((b ^ 2 * p : ℚ) : ℝ) ≤ ((a ^ 2 * q : ℚ) : ℝ) := by exact_mod_cast h
        push_cast at hQ
        nlinarith
      · have hR : ((b : ℝ)) ^ 2 * (p : ℝ) ≤ ((a : ℝ)) ^ 2 * (q : ℝ) := by nlinarith
        exact_mod_cast hR
    · rw [if_neg hb]
      simp only [true_iff]
      push_neg at hb
      have haR : (a : ℝ) < 0 := by exact_mod_cast ha
      have hbR : (0 : ℝ) ≤ (b : ℝ) := by exact_mod_cast hb
      have h1 : (a : ℝ) * Real.sqrt (q : ℝ) < 0 := mul_neg_of_neg_of_pos haR hqs
      have h2 : (0 : ℝ) ≤ (b : ℝ) * Real.sqrt (p : ℝ) := mul_nonneg hbR hps.le
      exact le_trans h1.le h2
  · rw [if_neg ha]
    push_neg at ha
    by_cases hb : b < 0
    · rw [if_pos hb]
      have haR : (0 : ℝ) ≤ (a : ℝ) := by exact_mod_cast ha
      have hbR : (b : ℝ) < 0 := by exact_mod_cast hb
      have h1 : (b : ℝ) * Real.sqrt (p : ℝ) < 0 := mul_neg_of_neg_of_pos hbR hps
      have h2 : (0 : ℝ) ≤ (a : ℝ) * Real.sqrt (q : ℝ) := mul_nonneg haR hqs.le
      constructor
      · intro hcontra
        exact absurd hcontra (by simp)
      · intro hle
        exact absurd hle (not_le.mpr (lt_of_lt_of_le h1 h2))
    · rw [if_neg hb]
      push_neg at hb
      have haR : (0 : ℝ) ≤ (a : ℝ) := by exact_mod_cast ha
      have hbR : (0 : ℝ) ≤ (b : ℝ) := by exact_mod_cast hb
      rw [← pow_le_pow_iff_left₀ (a := (a : ℝ) * Real.sqrt (q : ℝ))
        (mul_nonneg haR hqs.le) (mul_nonneg hbR hps.le) (two_ne_zero)]
      rw [mul_pow, mul_pow, hp2, hq2]
      rw [decide_eq_true_iff]
      constructor <;> intro h
      · have hQ : ((a ^ 2 * q : ℚ) : ℝ) ≤ ((b ^ 2 * p : ℚ) : ℝ) := by exact_mod_cast h
        push_cast at hQ
        nlinarith
      · have hR : ((a : ℝ)) ^ 2 * (q : ℝ) ≤ ((b : ℝ)) ^ 2 * (p : ℝ) := by nlinarith
        exact_mod_cast hR

lemma scoreLeB_trans (x y z : Score) (h1 : scoreLeB x y = true) (h2 : scoreLeB y z = true) :
    scoreLeB x z = true :=
  (scoreLeB_iff x z).mpr (le_trans ((scoreLeB_iff x y).mp h1) ((scoreLeB_iff y z).mp h2))

lemma scoreLeB_total (x y : Score) : (scoreLeB x y || scoreLeB y x) = true := by
  rcases le_total (scoreVal x) (scoreVal y) with h | h
  · rw [(scoreLeB_iff x y).mpr h]
    rfl
  · rw [(scoreLeB_iff y x).mpr h, Bool.or_true]

/-- The score pair used as the `threshold` in the filter `sim >= threshold`. -/
def thresholdScore (t : ℚ) : Score := ⟨(t, 1), one_pos⟩

lemma scoreVal_threshold (t : ℚ) : scoreVal (thresholdScore t) = (t : ℝ) := by
  unfold scoreVal thresholdScore
  simp [Real.sqrt_one]

/-- One row of the `document_embeddings` table.  `embedding : Option (List ℚ)`
models `r.get("embedding")`: `none` stands for a missing or non-list value. -/
structure EmbRow where
  id : ℤ
  source_table : String
  source_id : ℤ
  content : String
  embedding : Option (List ℚ)
deriving DecidableEq

/-- The body of the scoring loop of `retrieve_context` for one row: skip when
the embedding is missing/not a list (`none`) or empty, otherwise score the
row and keep it iff `sim >= threshold`.  (The `try/except` around the
similarity computation catches per-row arithmetic errors; over exact
rationals the computation is total, so the except branch is unreachable.) -/
def scoreRow (qvec : List ℚ) (threshold : ℚ) (r : EmbRow) : Option (EmbRow × Score) :=
  match r.embedding with
  | none => none
  | some emb =>
      if emb.length = 0 then none
      else if scoreLeB (thresholdScore threshold) (cosineScore qvec emb) then
        some (r, cosineScore qvec emb)
      else none

/-- Comparator for `scored.sort(key=lambda x: x["_score"], reverse=True)`. -/
def descBy (x y : EmbRow × Score) : Bool := scoreLeB y.2 x.2

/-- `retrieve_context` from `chatbot.py`, given the query embedding and the
fetched corpus rows: score each well-formed row, keep those with
`sim >= threshold`, sort descending by score, return the top `k`. -/
def retrieve_context (qvec : List ℚ) (rows : List EmbRow) (k : ℕ) (threshold : ℚ) :
    List (EmbRow × Score) :=
  ((rows.filterMap (scoreRow qvec threshold)).mergeSort descBy).take k

lemma scoreRow_some {qvec : List ℚ} {t : ℚ} {r : EmbRow} {x : EmbRow × Score}
    (h : scoreRow qvec t r = some x) :
    ∃ emb, r.embedding = some emb ∧ emb ≠ [] ∧
      x = (r, cosineScore qvec emb) ∧
      scoreLeB (thresholdScore t) (cosineScore qvec emb) = true := by
  unfold scoreRow at h
  cases hemb : r.embedding with
  | none => rw [hemb] at h; exact absurd h (by simp)
  | some emb =>
      rw [hemb] at h
      dsimp only at h
      split_ifs at h with h1 h2
      have hx : x = (r, cosineScore qvec emb) := (Option.some.inj h).symm
      have hne : emb ≠ [] := by
        intro hnil
        rw [hnil] at h1
        exact h1 rfl
      exact ⟨emb, rfl, hne, hx, h2⟩

/-- Any element of a retrieval result comes from a corpus row with a present,
non-empty embedding, carries exactly the zip-truncated cosine score of that
embedding, and that score is at least the threshold. -/
lemma mem_retrieve {qvec : List ℚ} {rows : List EmbRow} {k : ℕ} {t : ℚ}
    {x : EmbRow × Score} (hx : x ∈ retrieve_context qvec rows k t) :
    x.1 ∈ rows ∧ ∃ emb, x.1.embedding = some emb ∧ emb ≠ [] ∧
      x.2 = cosineScore qvec emb ∧ (t : ℝ) ≤ scoreVal x.2 := by
  unfold retrieve_context at hx
  have hx2 : x ∈ (rows.filterMap (scoreRow qvec t)).mergeSort descBy :=
    (List.take_sublist _ _).subset hx
  have hx3 : x ∈ rows.filterMap (scoreRow qvec t) :=
    (List.mergeSort_perm _ descBy).mem_iff.mp hx2
  rcases List.mem_filterMap.mp hx3 with ⟨r, hr, hsome⟩
  rcases scoreRow_some hsome with ⟨emb, hemb, hne, hxeq, hth⟩
  subst hxeq
  refine ⟨hr, emb, hemb, hne, rfl, ?_⟩
  have hv := (scoreLeB_iff _ _).mp hth
  rwa [scoreVal_threshold] at hv

/-- C6 — for every question embedding, corpus, `k` and threshold:
`retrieve_context` returns at most `k` chunks, every returned chunk's
cosine-similarity score is at least the threshold, and the result is sorted
in descending order of score. -/
theorem retrieve_context_spec (qvec : List ℚ) (rows : List EmbRow) (k : ℕ) (t : ℚ) :
    (retrieve_context qvec rows k t).length ≤ k ∧
    (∀ x ∈ retrieve_context qvec rows k t, ∃ emb, x.1.embedding = some emb ∧
      x.2 = cosineScore qvec emb ∧ (t : ℝ) ≤ cosine_similarity qvec emb) ∧
    (retrieve_context qvec rows k t).Pairwise
      (fun x y => scoreVal y.2 ≤ scoreVal x.2) := by
  refine ⟨?_, ?_, ?_⟩
  · unfold retrieve_context
    rw [List.length_take]
    exact min_le_left _ _
  · intro x hx
    rcases mem_retrieve hx with ⟨_, emb, hemb, _, hxeq, hth⟩
    refine ⟨emb, hemb, hxeq, ?_⟩
    rw [← scoreVal_cosineScore, ← hxeq]
    exact hth
  · unfold retrieve_context
    apply List.Pairwise.sublist (List.take_sublist _ _)
    refine List.Pairwise.imp ?_ (@List.sorted_mergeSort _ descBy ?_ ?_ _)
    · intro a b hab
      exact (scoreLeB_iff _ _).mp hab
    · intro a b c h1 h2
      exact scoreLeB_trans _ _ _ h2 h1
    · intro a b
      exact scoreLeB_total b.2 a.2

/-- A corpus row whose embedding has length 1 while the query embedding has
length 2: its similarity is computed over the zip truncation. -/
def rowMismatch : EmbRow := ⟨1, "players", 7, "Messi corre.", some [1]⟩

/-- C3 counterexample — a row whose embedding length (1) differs from the
query embedding's length (2) is NOT skipped: it is scored over the zip
truncation and returned by `retrieve_context`. -/
lemma cosineScore_mismatch_eval :
    cosineScore [1, 0] [(1 : ℚ)] = ⟨(1, 1), one_pos⟩ := by
  apply Subtype.ext
  show cosPair [1, 0] [(1 : ℚ)] = (1, 1)
  unfold cosPair
  have hdot : dotQ [(1 : ℚ), 0] [1] = 1 := by norm_num [dotQ, List.zip]
  have hs1 : sumSq [(1 : ℚ), 0] = 1 := by norm_num [sumSq]
  have hs2 : sumSq [(1 : ℚ)] = 1 := by norm_num [sumSq]
  rw [hdot, hs1, hs2]
  norm_num

lemma retrieve_mismatch_eval :
    retrieve_context [1, 0] [rowMismatch] 5 (7/10) =
      [(rowMismatch, cosineScore [1, 0] [1])] := by
  have hle : scoreLeB (thresholdScore (7/10)) (cosineScore [(1 : ℚ), 0] [1]) = true := by
    rw [cosineScore_mismatch_eval]
    unfold scoreLeB thresholdScore
    norm_num
  have hrow : scoreRow [1, 0] ((7 : ℚ)/10) rowMismatch =
      some (rowMismatch, cosineScore [1, 0] [1]) := by
    show (match rowMismatch.embedding with
      | none => none
      | some emb =>
          if emb.length = 0 then none
          else if scoreLeB (thresholdScore ((7 : ℚ)/10)) (cosineScore [1, 0] emb) then
            some (rowMismatch, cosineScore [1, 0] emb)
          else none) = some (rowMismatch, cosineScore [1, 0] [1])
    show (if ([(1 : ℚ)]).length = 0 then none
      else if scoreLeB (thresholdScore ((7 : ℚ)/10)) (cosineScore [1, 0] [1]) then
        some (rowMismatch, cosineScore [1, 0] [1])
      else none) = some (rowMismatch, cosineScore [1, 0] [1])
    rw [if_neg (by norm_num), if_pos hle]
  unfold retrieve_context
  rw [List.filterMap_cons, hrow, List.filterMap_nil, List.mergeSort_singleton]
  rfl

theorem retrieve_keeps_mismatched_row :
    rowMismatch.embedding = some [(1 : ℚ)] ∧
    ([(1 : ℚ)].length ≠ ([1, 0] : List ℚ).length) ∧
    retrieve_context [1, 0] [rowMismatch] 5 (7/10) =
      [(rowMismatch, cosineScore [1, 0] [1])] :=
  ⟨rfl, by decide, retrieve_mismatch_eval⟩

/-- C3 amended — `retrieve_context` skips exactly the rows whose embedding is
missing/not a list or empty; every returned chunk comes from a row with a
present non-empty embedding and is scored by the (zip-truncating) cosine of
that embedding — a length mismatch with the query embedding is not detected. -/
theorem retrieve_skips_malformed (qvec : List ℚ) (rows : List EmbRow) (k : ℕ) (t : ℚ)
    (x : EmbRow × Score) (hx : x ∈ retrieve_context qvec rows k t) :
    ∃ emb, x.1.embedding = some emb ∧ emb ≠ [] ∧ x.2 = cosineScore qvec emb := by
  rcases mem_retrieve hx with ⟨_, emb, hemb, hne, hxeq, _⟩
  exact ⟨emb, hemb, hne, hxeq⟩

theorem retrieve_context_spec_witness :
    (retrieve_context [1, 0] [rowMismatch] 5 (7/10)).length ≤ 5 :=
  (retrieve_context_spec [1, 0] [rowMismatch] 5 (7/10)).1

theorem retrieve_skips_malformed_witness :
    ∃ emb, (rowMismatch, cosineScore [1, 0] [(1 : ℚ)]).1.embedding = some emb ∧
      emb ≠ [] ∧ (rowMismatch, cosineScore [1, 0] [(1 : ℚ)]).2 = cosineScore [1, 0] emb :=
  retrieve_skips_malformed [1, 0] [rowMismatch] 5 (7/10) _
    (by rw [retrieve_mismatch_eval]; exact List.mem_singleton_self _)

/-! ## Extractive answer synthesis (`generate_answer`) -/

def strTrim (s : String) : String := String.mk (trimList s.data)

/-- Python `s.split(sep)[0]`: the characters before the first separator. -/
def firstField (sep : Char) (s : String) : String :=
  String.mk (s.data.takeWhile (fun c => c != sep))

def strContains (s : String) (c : Char) : Bool := s.data.contains c

def strTake (n : ℕ) (s : String) : String := String.mk (s.data.take n)

def strLen (s : String) : ℕ := s.data.length

def msgInsufficient : String :=
  "No hay datos suficientes en la BBDD para responder con precisión."

def msgNotFound : String := "No se encuentra información en la base de datos."

/-- `text.split("\n")[0].strip()`. -/
def lineCandidate (text : String) : String := strTrim (firstField '\n' text)

/-- `candidate.split(".")[0].strip() + "."`. -/
def dotCandidate (c : String) : String := strTrim (firstField '.' c) ++ "."

/-- `(text[:200] + "...") if len(text) > 200 else text`. -/
def fallback200 (text : String) : String :=
  if 200 < strLen text then strTake 200 text ++ "..." else text

set_option linter.unusedVariables false in
/-- `generate_answer` from `chatbot.py`: pick the first chunk with truthy
content; first line, truncated at the first period when present; fall back to
the first 200 characters (ellipsis when truncated) when the candidate is
empty or shorter than 10 characters; a still-empty candidate yields the fixed
not-found message. -/
def generate_answer (question : String) (chunks : List (EmbRow × Score)) : String :=
  if chunks.isEmpty then msgInsufficient
  else
    match chunks.find? (fun c => decide (c.1.content ≠ "")) with
    | none => msgNotFound
    | some top =>
        let text := strTrim top.1.content
        let c0 := lineCandidate text
        let c1 := if strContains c0 '.' then dotCandidate c0 else c0
        let c2 := if c1 = "" ∨ strLen c1 < 10 then fallback200 text else c1
        if c2 = "" ∨ strTrim c2 = "" then msgNotFound else c2

lemma mem_dropWhile_of_not {p : Char → Bool} {c : Char} (hc : p c = false) :
    ∀ {l : List Char}, c ∈ l → c ∈ List.dropWhile p l := by
  intro l
  induction l with
  | nil => intro h; exact absurd h (List.not_mem_nil c)
  | cons x xs ih =>
      intro h
      rw [List.dropWhile_cons]
      by_cases hx : p x = true
      · rw [if_pos hx]
        rcases List.mem_cons.mp h with hcx | hmem
        · subst hcx; rw [hc] at hx; exact absurd hx (by simp)
        · exact ih hmem
      · rw [if_neg hx]
        exact h

lemma mem_trimList_of_not_ws {c : Char} (hc : ws c = false) {l : List Char}
    (hmem : c ∈ l) : c ∈ trimList l := by
  unfold trimList
  have h1 : c ∈ List.dropWhile ws l := mem_dropWhile_of_not hc hmem
  unfold List.rdropWhile
  rw [List.mem_reverse]
  exact mem_dropWhile_of_not hc (List.mem_reverse.mpr h1)

lemma strTrim_ne_empty {s : String} {c : Char} (hc : ws c = false)
    (hmem : c ∈ s.data) : strTrim s ≠ "" := by
  intro h
  have hdata : trimList s.data = [] := congrArg String.data h
  have := mem_trimList_of_not_ws hc hmem
  rw [hdata] at this
  exact List.not_mem_nil c this

lemma dotCandidate_ne_empty (c : String) : dotCandidate c ≠ "" := by
  intro h
  have hdata := congrArg String.data h
  unfold dotCandidate at hdata
  simp [String.data_append] at hdata

lemma strTrim_dotCandidate_ne_empty (c : String) : strTrim (dotCandidate c) ≠ "" := by
  apply strTrim_ne_empty (c := '.') (by decide)
  show '.' ∈ (strTrim (firstField '.' c) ++ ".").data
  rw [String.data_append]
  exact List.mem_append_right _ (by decide)

/-- Shape of `generate_answer` once the first truthy-content chunk is known. -/
lemma generate_answer_cons (question : String) (chunks : List (EmbRow × Score))
    (top : EmbRow × Score)
    (hfind : chunks.find? (fun c => decide (c.1.content ≠ "")) = some top)
    (hne : chunks.isEmpty = false) :
    generate_answer question chunks =
      (let text := strTrim top.1.content
       let c0 := lineCandidate text
       let c1 := if strContains c0 '.' then dotCandidate c0 else c0
       let c2 := if c1 = "" ∨ strLen c1 < 10 then fallback200 text else c1
       if c2 = "" ∨ strTrim c2 = "" then msgNotFound else c2) := by
  unfold generate_answer
  rw [if_neg (by rw [hne]; exact Bool.false_ne_true), hfind]

/-- C8 amended — for a chunk list whose first chunk with non-empty content is
`top`: when the first line of the stripped text contains a period and the
period-truncated candidate has at least 10 characters, `generate_answer`
returns exactly that truncation; when the candidate is empty or shorter than
10 characters it returns the 200-character fallback of the full stripped
text, unless that fallback is empty or whitespace-only, in which case the
fixed not-found message is returned. -/
theorem generate_answer_extractive_spec (question : String)
    (chunks : List (EmbRow × Score)) (top : EmbRow × Score)
    (hfind : chunks.find? (fun c => decide (c.1.content ≠ "")) = some top) :
    (strContains (lineCandidate (strTrim top.1.content)) '.' = true →
      10 ≤ strLen (dotCandidate (lineCandidate (strTrim top.1.content))) →
      generate_answer question chunks =
        dotCandidate (lineCandidate (strTrim top.1.content))) ∧
    (((if strContains (lineCandidate (strTrim top.1.content)) '.' then
          dotCandidate (lineCandidate (strTrim top.1.content))
        else lineCandidate (strTrim top.1.content)) = "" ∨
      strLen (if strContains (lineCandidate (strTrim top.1.content)) '.' then
          dotCandidate (lineCandidate (strTrim top.1.content))
        else lineCandidate (strTrim top.1.content)) < 10) →
      generate_answer question chunks =
        (if fallback200 (strTrim top.1.content) = "" ∨
            strTrim (fallback200 (strTrim top.1.content)) = "" then msgNotFound
          else fallback200 (strTrim top.1.content))) := by
  have hne : chunks.isEmpty = false := by
    cases chunks with
    | nil => exact absurd hfind (by simp)
    | cons a l => rfl
  have hshape := generate_answer_cons question chunks top hfind hne
  dsimp only at hshape
  constructor
  · intro hdot hlen
    rw [hshape, if_pos hdot]
    have hc1ne : ¬(dotCandidate (lineCandidate (strTrim top.1.content)) = "" ∨
        strLen (dotCandidate (lineCandidate (strTrim top.1.content))) < 10) := by
      rintro (hemp | hshort)
      · exact dotCandidate_ne_empty _ hemp
      · omega
    rw [if_neg hc1ne]
    have hfinal : ¬(dotCandidate (lineCandidate (strTrim top.1.content)) = "" ∨
        strTrim (dotCandidate (lineCandidate (strTrim top.1.content))) = "") := by
      rintro (hemp | htrim)
      · exact dotCandidate_ne_empty _ hemp
      · exact strTrim_dotCandidate_ne_empty _ htrim
    rw [if_neg hfinal]
  · intro hshort
    rw [hshape]
    rw [if_pos hshort]

/-- A chunk whose content is a single space: truthy in Python, but entirely
whitespace. -/
def wsChunk : EmbRow := ⟨1, "players", 1, " ", none⟩

/-- C8 counterexample — on a chunk list whose first chunk has the non-empty
content `" "`, the candidate is empty and the full text is empty after
stripping, so `generate_answer` returns the fixed not-found message and NOT
the (empty) 200-character prefix of the full text that the claim promises. -/
theorem generate_answer_whitespace_content :
    wsChunk.content ≠ "" ∧
    generate_answer "pregunta" [(wsChunk, ⟨(1, 1), one_pos⟩)] = msgNotFound ∧
    msgNotFound ≠ "" ∧ msgNotFound ≠ " " := by
  refine ⟨by decide, ?_, by decide, by decide⟩
  rfl

theorem generate_answer_extractive_spec_witness :
    generate_answer "pregunta" [(⟨2, "players", 3,
      "Messi ganó el Balón de Oro. Fue un año histórico.", none⟩, ⟨(1, 1), one_pos⟩)] =
      "Messi ganó el Balón de Oro." := by
  have h := (generate_answer_extractive_spec "pregunta"
      [(⟨2, "players", 3, "Messi ganó el Balón de Oro. Fue un año histórico.", none⟩,
        ⟨(1, 1), one_pos⟩)]
      (⟨2, "players", 3, "Messi ganó el Balón de Oro. Fue un año histórico.", none⟩,
        ⟨(1, 1), one_pos⟩) rfl).1 (by decide) (by decide)
  rw [h]
  rfl

/-- `generate_answer` never returns the empty string. -/
lemma generate_answer_ne_empty (question : String) (chunks : List (EmbRow × Score)) :
    generate_answer question chunks ≠ "" := by
  by_cases hempty : chunks.isEmpty = true
  · unfold generate_answer
    rw [if_pos hempty]
    decide
  · cases hfind : chunks.find? (fun c => decide (c.1.content ≠ "")) with
    | none =>
        unfold generate_answer
        rw [if_neg hempty, hfind]
        decide
    | some top =>
        rw [generate_answer_cons question chunks top hfind
          (Bool.of_not_eq_true hempty)]
        dsimp only
        by_cases hcond : (if (if strContains (lineCandidate (strTrim top.1.content)) '.' then
              dotCandidate (lineCandidate (strTrim top.1.content))
            else lineCandidate (strTrim top.1.content)) = "" ∨
            strLen (if strContains (lineCandidate (strTrim top.1.content)) '.' then
              dotCandidate (lineCandidate (strTrim top.1.content))
            else lineCandidate (strTrim top.1.content)) < 10 then
            fallback200 (strTrim top.1.content)
          else (if strContains (lineCandidate (strTrim top.1.content)) '.' then
              dotCandidate (lineCandidate (strTrim top.1.content))
            else lineCandidate (strTrim top.1.content))) = "" ∨
          strTrim (if (if strContains (lineCandidate (strTrim top.1.content)) '.' then
              dotCandidate (lineCandidate (strTrim top.1.content))
            else lineCandidate (strTrim top.1.content)) = "" ∨
            strLen (if strContains (lineCandidate (strTrim top.1.content)) '.' then
              dotCandidate (lineCandidate (strTrim top.1.content))
            else lineCandidate (strTrim top.1.content)) < 10 then
            fallback200 (strTrim top.1.content)
          else (if strContains (lineCandidate (strTrim top.1.content)) '.' then
              dotCandidate (lineCandidate (strTrim top.1.content))
            else lineCandidate (strTrim top.1.content))) = ""
        · rw [if_pos hcond]
          decide
        · rw [if_neg hcond]
          intro h
          exact hcond (Or.inl h)

/-! ## Superlative vocabulary (`STAT_MAP`) and resolver -/

structure StatEntry where
  keyword : String
  table : String
  column : String
  label : String
deriving DecidableEq

/-- `STAT_MAP` from `chatbot.py`, in insertion (= iteration) order. -/
def STAT_MAP : List StatEntry := [
  ⟨"partidos", "stats", "games_played", "partidos jugados"⟩,
  ⟨"goles", "stats", "goals", "goles"⟩,
  ⟨"asistencias", "stats", "assists", "asistencias"⟩,
  ⟨"tarjetas amarillas", "stats", "yellow_card", "tarjetas amarillas"⟩,
  ⟨"tarjetas rojas", "stats", "red_card", "tarjetas rojas"⟩,
  ⟨"minutos", "stats", "minutes_played", "minutos jugados"⟩,
  ⟨"porterías a cero", "stats", "clean_sheet", "porterías a cero"⟩,
  ⟨"paradas", "stats", "saves", "paradas"⟩,
  ⟨"segundas amarillas", "stats", "second_yellow_card", "segundas tarjetas amarillas"⟩,
  ⟨"faltas cometidas", "stats", "fouls_commited", "faltas cometidas"⟩,
  ⟨"faltas recibidas", "stats", "fouls_suffered", "faltas recibidas"⟩,
  ⟨"fuera de juego", "stats", "offsides", "fueras de juego"⟩,
  ⟨"tiros", "stats", "shots", "tiros"⟩,
  ⟨"pases", "stats", "passes", "pases"⟩,
  ⟨"balones largos", "stats", "long_balls", "balones largos"⟩,
  ⟨"duelos", "stats", "duels", "duelos"⟩,
  ⟨"tiros bloqueados", "stats", "blocked_shots", "tiros bloqueados"⟩,
  ⟨"intercepciones", "stats", "interceptions", "intercepciones"⟩,
  ⟨"último hombre", "stats", "last_man", "último hombre"⟩,
  ⟨"entradas", "stats", "tackles", "entradas"⟩,
  ⟨"recuperaciones", "stats", "recoveries", "recuperaciones"⟩,
  ⟨"despejes", "stats", "clearances", "despejes"⟩,
  ⟨"penaltis", "stats", "penalties", "penaltis"⟩,
  ⟨"penaltis fallados", "stats", "penalties_missed", "penaltis fallados"⟩,
  ⟨"penaltis parados", "stats", "penalties_saved", "penaltis parados"⟩,
  ⟨"penaltis cometidos", "stats", "penalties_commited", "penaltis cometidos"⟩,
  ⟨"penaltis sufridos", "stats", "penalties_suffered", "penaltis sufridos"⟩,
  ⟨"victorias árbitro", "referee_stats", "wins", "victorias arbitradas"⟩,
  ⟨"empates árbitro", "referee_stats", "draws", "empates arbitrados"⟩,
  ⟨"derrotas árbitro", "referee_stats", "defeats", "derrotas arbitradas"⟩,
  ⟨"tarjetas amarillas árbitro", "referee_stats", "yellow_cards", "tarjetas amarillas mostradas"⟩,
  ⟨"segundas amarillas árbitro", "referee_stats", "second_yellow_cards", "segundas amarillas mostradas"⟩,
  ⟨"tarjetas rojas árbitro", "referee_stats", "red_cards", "tarjetas rojas mostradas"⟩,
  ⟨"penaltis árbitro", "referee_stats", "penalties", "penaltis señalados"⟩,
  ⟨"penaltis en contra árbitro", "referee_stats", "penalties_against", "penaltis en contra señalados"⟩,
  ⟨"capacidad estadio", "stadiums", "capacity", "capacidad del estadio"⟩,
  ⟨"año construcción estadio", "stadiums", "year_construction", "año de construcción del estadio"⟩]

/-- The first-match-wins scan over `STAT_MAP` performed by `get_top_entity`:
`for keyword, ... in STAT_MAP.items(): if keyword in q: ...`. -/
def statLookup (q : String) : Option StatEntry :=
  STAT_MAP.find? (fun e => strIn e.keyword q)

/-! ## Scripted dialogue (`get_smalltalk`) -/

/-- One trigger condition of a `get_smalltalk` branch: a disjunction
(`"a" in q or "b" in q`) or a conjunction (`"a" in q and "b" in q`) of
substring tests. -/
inductive Trigger where
  | anyOf (phrases : List String)
  | allOf (phrases : List String)
deriving DecidableEq

def Trigger.matches (t : Trigger) (q : String) : Bool :=
  match t with
  | .anyOf ps => ps.any (fun p => strIn p q)
  | .allOf ps => ps.all (fun p => strIn p q)

def smalltalkTable : List (Trigger × String) := [
  (Trigger.anyOf ["como te llamas"],
    "Aún no tengo nombre, mi creador no supo que ponerme, ayudale con alguna idea chula"),
  (Trigger.anyOf ["que puedes hacer"],
    "Puedo darte información sobre jugadores, equipos, árbitros y estadios... y muchas cosas más"),
  (Trigger.anyOf ["hola", "buenas"],
    "¡Hola! ¿Qué quieres consultar sobre fútbol?"),
  (Trigger.anyOf ["quien eres"],
    "Soy tu asistente de fútbol, listo para darte estadísticas y curiosidades."),
  (Trigger.anyOf ["que tal", "como estas"],
    "¡Todo bien! Preparado para hablar de fútbol contigo."),
  (Trigger.anyOf ["adios", "hasta luego", "nos vemos"],
    "¡Hasta pronto! Disfruta del fútbol."),
  (Trigger.anyOf ["gracias", "muchas gracias"],
    "¡De nada! Encantado de ayudarte con tus consultas."),
  (Trigger.anyOf ["vamos", "vamo"],
    "¡Vamos! El fútbol siempre nos da emoción."),
  (Trigger.anyOf ["quien gano"],
    "Da igual quien gane o pierda, lo importante es disfrutar de lo que amamos"),
  (Trigger.anyOf ["que opinas"],
    "Prefiero darte datos objetivos, aunque el fútbol siempre genera opiniones apasionadas."),
  (Trigger.anyOf ["buenos dias", "buenas tardes", "buenas noches"],
    "¡Muy buenas! ¿Listo para hablar de fútbol?"),
  (Trigger.anyOf ["encantado", "mucho gusto"],
    "El gusto es mío, siempre preparado para charlar de fútbol contigo."),
  (Trigger.anyOf ["me gusta el futbol", "amo el futbol"],
    "¡A mí también! El fútbol es pasión."),
  (Trigger.anyOf ["cuantos años tienes", "edad"],
    "Acabo de nacer, no tengo ni un añito. Pero eso no me impide para charlar de fútbol contigo"),
  (Trigger.anyOf ["eres inteligente", "eres listo"],
    "Gracias, intento ser lo más útil posible con tus consultas futboleras."),
  (Trigger.anyOf ["estas ahi", "sigues ahi"],
    "Sí, aquí estoy, listo para responderte."),
  (Trigger.anyOf ["me aburro", "estoy aburrido"],
    "El fútbol siempre tiene algo interesante, ¿quieres que te cuente alguna estadística curiosa?"),
  (Trigger.anyOf ["cuentame un dato curioso", "sabes alguna curiosidad"],
    "Claro, por ejemplo: ¿sabías que el gol más rápido registrado en la historia del fútbol profesional se anotó a los 2.4 segundos de partido, obra de Nawaf Al-Abed en una liga de Arabia Saudita?"),
  (Trigger.anyOf ["feliz navidad", "felices fiestas"],
    "¡Felices fiestas! Que el fútbol te acompañe en estas celebraciones."),
  (Trigger.anyOf ["feliz cumpleaños", "cumpleaños"],
    "¡Feliz cumpleaños! Espero que tu día esté lleno de goles y victorias."),
  (Trigger.anyOf ["me ayudas", "puedes ayudarme"],
    "¡Claro! Pregunta lo que quieras sobre fútbol y te daré la mejor respuesta posible."),
  (Trigger.anyOf ["me recomiendas", "que me aconsejas"],
    "Te recomiendo explorar estadísticas de jugadores o equipos, siempre hay datos interesantes."),
  (Trigger.anyOf ["me aburres", "eres aburrido"],
    "Lo siento, intentaré ser más entretenido. ¿Quieres que te cuente una curiosidad futbolera?"),
  (Trigger.anyOf ["me caes bien", "eres simpatico"],
    "¡Gracias! Intento ser un buen compañero futbolero."),
  (Trigger.anyOf ["eres real", "existes"],
    "Soy virtual, pero mis respuestas están basadas en datos reales de tu base de fútbol."),
  (Trigger.anyOf ["eres humano", "tienes cuerpo"],
    "No soy humano, solo soy un asistente virtual especializado en fútbol."),
  (Trigger.anyOf ["me entiendes", "entiendes"],
    "Sí, entiendo tu consulta y la traduzco en datos futboleros."),
  (Trigger.anyOf ["cuentame un chiste", "dime un chiste"],
    "¿Sabes cuál es el colmo de un portero? Que le hagan un túnel en su propia casa."),
  (Trigger.anyOf ["eres gracioso", "tienes humor"],
    "Intento ponerle humor al fútbol, aunque los datos son mi especialidad."),
  (Trigger.anyOf ["me saludas", "saludame"],
    "Alooo Presidentessss. Upss, me creí Illojuan por un momento. Un saludo campeón"),
  (Trigger.anyOf ["me alegro", "que bien"],
    "¡Genial! El fútbol siempre trae buenas noticias."),
  (Trigger.anyOf ["estoy triste", "me siento mal"],
    "Ánimo, el fútbol siempre tiene momentos que levantan el espíritu."),
  (Trigger.anyOf ["estoy feliz", "me siento bien"],
    "¡Me alegra escucharlo! El fútbol también celebra la alegría."),
  (Trigger.anyOf ["te gusta el futbol", "amas el futbol"],
    "¡Claro! El fútbol es mi razón de existir."),
  (Trigger.anyOf ["quien es el mejor jugador"],
    "Eso depende de la época y del criterio."),
  (Trigger.anyOf ["quien es el mejor equipo"],
    "Cada aficionado tiene su favorito."),
  (Trigger.anyOf ["me cuentas una historia", "cuentame algo"],
    "Final del Mundial 2010, minuto 116: Cesc filtra el pase, Iniesta controla con el alma y, con un latigazo seco, rompe la red. ¡Gol! España entera estalla, Casillas cae de rodillas, y Andrés corre desatado, se quita la camiseta para mostrar \u0027Dani Jarque siempre con nosotros\u0027. Es el grito que nos hizo campeones: ¡Iniesta de mi vida!"),
  (Trigger.anyOf ["eres aburrido", "no me gusta"],
    "Lo siento, intentaré ser más entretenido. ¿Quieres que te dé un dato curioso?"),
  (Trigger.anyOf ["eres divertido", "me haces reir"],
    "¡Gracias! El fútbol también tiene su lado gracioso."),
  (Trigger.anyOf ["me das suerte", "traes suerte"],
    "Muchas gracias, puedo ser tu trébol de cuatro hojas a partir de ahora"),
  (Trigger.anyOf ["vamos equipo", "vamos campeon"],
    "¡Vamos! La pasión por el fútbol nunca se detiene."),
  (Trigger.anyOf ["no te rindas", "sigue adelante"],
    "En el fútbol, como en la vida, la perseverancia siempre trae recompensas."),
  (Trigger.anyOf ["la pasion nunca muere", "el futbol nunca muere"],
    "Exacto, la pasión por el fútbol es eterna."),
  (Trigger.anyOf ["arriba", "fuerza"],
    "¡Ánimo! El fútbol siempre nos da razones para seguir."),
  (Trigger.anyOf ["somos los mejores", "somos campeones"],
    "¡Orgullo total! El fútbol se vive con corazón."),
  (Trigger.anyOf ["quiero motivacion", "motivame"],
    "El fútbol enseña que cada partido es una nueva oportunidad para brillar."),
  (Trigger.anyOf ["grita gol", "golazo"],
    "¡GOOOOL! Nada se compara con la emoción de un gol."),
  (Trigger.anyOf ["si se puede si se puede estoy escuchando"],
    "No, de hecho los canticos son de directiva dimisión"),
  (Trigger.anyOf ["la aficion", "los hinchas"],
    "La afición es el alma del fútbol, sin ellos no habría magia."),
  (Trigger.anyOf ["el futbol es vida", "el futbol es todo"],
    "Así es, el fútbol es más que un deporte, es una forma de vivir."),
  (Trigger.anyOf ["quiero animos", "dame animos"],
    "¡Tú puedes! El fútbol siempre nos recuerda que nunca hay que rendirse."),
  (Trigger.anyOf ["arbitro compra gafas", "arbitro ciego"],
    "Jajaja, los árbitros siempre son protagonistas de la polémica."),
  (Trigger.anyOf ["ese gol lo metia mi abuela", "lo metia cualquiera"],
    "¡Jajaja! A veces los goles parecen fáciles, pero en el campo nunca lo son."),
  (Trigger.anyOf ["arbitro vendido", "arbitro comprado"],
    "El arbitraje siempre genera debate, pero yo prefiero darte datos objetivos."),
  (Trigger.anyOf ["que desastre", "que mal jugamos"],
    "El fútbol tiene días buenos y malos, lo importante es seguir apoyando al equipo."),
  (Trigger.anyOf ["somos malos", "jugamos fatal"],
    "Ánimo, cada equipo tiene altibajos, pero siempre hay oportunidad de mejorar."),
  (Trigger.anyOf ["que partidazo", "gran partido"],
    "¡Sí! El fútbol nos regala emociones únicas en cada encuentro."),
  (Trigger.anyOf ["que aburrido", "partido aburrido"],
    "A veces pasa, pero hasta los partidos más tranquilos esconden datos interesantes."),
  (Trigger.anyOf ["que nervios", "estoy nervioso"],
    "El fútbol siempre nos pone al borde del asiento, ¡esa es su magia!"),
  (Trigger.anyOf ["que emocion", "estoy emocionado"],
    "¡Eso es lo mejor del fútbol! La emoción nunca falta."),
  (Trigger.anyOf ["que injusto", "no fue justo"],
    "El fútbol no siempre es justo, pero siempre es apasionante."),
  (Trigger.anyOf ["mi equipo es mejor", "nuestro equipo es el mejor"],
    "¡Eso es pasión de hincha! Cada aficionado defiende a su equipo con orgullo."),
  (Trigger.anyOf ["tu equipo es malo", "ese equipo es malo"],
    "Cada equipo tiene altibajos, pero todos forman parte de la historia del fútbol."),
  (Trigger.anyOf ["los clasicos son los mejores", "me gustan los clasicos"],
    "Los clásicos siempre tienen una magia especial, llenos de rivalidad y emoción."),
  (Trigger.anyOf ["odio a ese equipo", "no me gusta ese equipo"],
    "El fútbol despierta pasiones, pero también respeto por la competencia."),
  (Trigger.anyOf ["somos rivales", "rivalidad"],
    "La rivalidad hace que el fútbol sea más emocionante, siempre con respeto."),
  (Trigger.anyOf ["ganamos el clasico", "perdimos el clasico"],
    "Los clásicos marcan historia, cada resultado se recuerda por años."),
  (Trigger.anyOf ["quien es nuestro rival", "cual es el rival"],
    "Cada equipo tiene su clásico rival."),
  (Trigger.anyOf ["odio al arbitro", "mal arbitro"],
    "Los árbitros siempre generan debate, pero sin ellos no habría partido."),
  (Trigger.anyOf ["la liga es nuestra", "vamos a ganar la liga"],
    "¡Eso es confianza! La liga siempre es una batalla emocionante."),
  (Trigger.anyOf ["la copa es nuestra", "vamos a ganar la copa"],
    "¡A por la copa! Cada torneo tiene su propia gloria."),
  (Trigger.anyOf ["que miras bobo"],
    "Anda palla bobo"),
  (Trigger.anyOf ["ole ole ole", "ole ole"],
    "¡Olé, olé, olé! Así se anima a un equipo en el estadio."),
  (Trigger.anyOf ["dale campeon", "vamos campeon"],
    "¡Dale campeón! El fútbol se vive con corazón y orgullo."),
  (Trigger.anyOf ["somos la mejor hinchada", "la mejor aficion"],
    "¡Claro que sí! La afición es el motor del fútbol."),
  (Trigger.anyOf ["cantemos", "canta conmigo"],
    "🎶 Muchachos, ahora nos volvimos a ilusionar, quiero ganar la tercera, quiero ser campeón mundial... 🎶"),
  (Trigger.anyOf ["esta es tu hinchada", "esta es tu aficion"],
    "¡Siempre presente! La hinchada acompaña en las buenas y en las malas."),
  (Trigger.anyOf ["que cante la gente", "canta la aficion"],
    "¡La voz de la afición hace temblar los estadios!"),
  (Trigger.anyOf ["somos locales", "jugamos en casa"],
    "¡La casa siempre pesa! Jugar de local es un plus enorme."),
  (Trigger.anyOf ["somos visitantes", "jugamos fuera"],
    "De visitante también se puede ganar, ¡con garra y corazón!"),
  (Trigger.anyOf ["la hinchada nunca abandona", "la aficion nunca abandona"],
    "Exacto, la verdadera afición está siempre, gane o pierda el equipo."),
  (Trigger.anyOf ["vamos de fiesta", "a celebrar"],
    "¡Claro que sí! Después de una victoria, la fiesta dura toda la noche, sino preguntale a Oihan Sancet."),
  (Trigger.anyOf ["lo celebramos toda la noche", "fiesta toda la noche"],
    "¡Eso es espíritu de campeón! La celebración nunca termina."),
  (Trigger.anyOf ["brindemos", "un brindis"],
    "¡Salud por el fútbol y por la victoria!"),
  (Trigger.anyOf ["somos campeones", "campeones"],
    "¡Campeones! Nada se compara con levantar el trofeo."),
  (Trigger.anyOf ["ganamos", "hemos ganado"],
    "¡Victoria! El esfuerzo del equipo dio sus frutos."),
  (Trigger.anyOf ["perdimos", "hemos perdido"],
    "Hoy no fue el día, pero siempre habrá otra oportunidad."),
  (Trigger.anyOf ["celebracion", "fiesta futbolera"],
    "¡La celebración futbolera es única, llena de cánticos y alegría!"),
  (Trigger.anyOf ["trofeo", "copa"],
    "Levantar un trofeo es el sueño de todo equipo y afición."),
  (Trigger.anyOf ["victoria historica", "partido historico"],
    "¡Eso quedará en la memoria de todos los hinchas por generaciones!"),
  (Trigger.anyOf ["derrota dolorosa", "perdimos feo"],
    "Las derrotas duelen, pero también enseñan y fortalecen al equipo."),
  (Trigger.anyOf ["hoy jugamos", "tenemos partido"],
    "¡Hoy es día de fútbol! La emoción empieza desde antes de que ruede el balón."),
  (Trigger.anyOf ["empieza el partido", "ya comienza"],
    "¡Que ruede el balón! La magia del fútbol está en marcha."),
  (Trigger.anyOf ["ya rueda el balon", "balon en juego"],
    "¡El balón ya está en juego! A disfrutar cada minuto."),
  (Trigger.anyOf ["primer tiempo", "primer parte"],
    "Arranca el primer tiempo, todo por decidir."),
  (Trigger.anyOf ["segundo tiempo", "segunda parte"],
    "Comienza la segunda parte, donde se definen los partidos."),
  (Trigger.anyOf ["tiempo extra", "prorroga"],
    "¡Prórroga! El fútbol nos regala más minutos de emoción."),
  (Trigger.anyOf ["penaltis", "definicion por penales"],
    "¡A penaltis! El momento más tenso y emocionante del fútbol."),
  (Trigger.anyOf ["descanso", "entretiempo"],
    "Es el descanso, buen momento para analizar lo que pasó en la primera parte."),
  (Trigger.anyOf ["aficion cantando", "hinchada cantando"],
    "¡La afición nunca se calla! Su voz es el motor del equipo."),
  (Trigger.anyOf ["ambiente de estadio", "que ambiente"],
    "El ambiente del estadio es único, lleno de pasión y energía."),
  (Trigger.anyOf ["inazuma eleven"],
    "¡Inazuma Eleven! Donde los supertiros y la amistad hacen que el fútbol sea épico."),
  (Trigger.anyOf ["mark evans", "endou mamoru"],
    "Mark Evans siempre creyó en la fuerza del equipo y en parar cualquier tiro."),
  (Trigger.anyOf ["axel blaze", "gouenji"],
    "Axel Blaze, el delantero estrella, con su famoso \u0027Tornado de Fuego\u0027."),
  (Trigger.anyOf ["oliver y benji", "captain tsubasa"],
    "Oliver y Benji nos enseñaron que el campo podía ser infinito y lleno de emoción."),
  (Trigger.anyOf ["oliver atom", "tsubasa ozora"],
    "Oliver Atom, el eterno soñador del fútbol, siempre buscando ser el mejor del mundo."),
  (Trigger.anyOf ["benji price", "genzo wakabayashi"],
    "Benji Price, el portero imbatible, capaz de detener cualquier disparo imposible."),
  (Trigger.anyOf ["steve hyuga", "kojiro hyuga"],
    "Steve Hyuga, el delantero con garra, famoso por su \u0027Tiro del Tigre\u0027."),
  (Trigger.anyOf ["campo infinito", "partidos eternos"],
    "¡Eso es Oliver y Benji! Donde correr de portería a portería podía durar capítulos enteros."),
  (Trigger.anyOf ["supertiro", "tiro especial"],
    "Los supertiros de Inazuma Eleven y Oliver y Benji son pura fantasía futbolera."),
  (Trigger.anyOf ["balon de fuego", "tiro del halcon"],
    "¡Un clásico! Los tiros especiales hacían que el fútbol fuera aún más espectacular."),
  (Trigger.anyOf ["jude sharp", "jude", "kidou yuuto"],
    "Jude Sharp, el estratega del equipo, siempre con su \u0027Ojo del Águila\u0027."),
  (Trigger.anyOf ["shawn frost", "fubuki shirou"],
    "Shawn Frost, el delantero con doble personalidad, capaz de usar el \u0027Remate Doble\u0027."),
  (Trigger.anyOf ["xavier foster", "sakuma"],
    "Xavier Foster, un rival temible con tiros espectaculares."),
  (Trigger.anyOf ["royce", "coach hillman"],
    "El entrenador siempre recordaba que la unión del equipo era más fuerte que cualquier técnica."),
  (Trigger.anyOf ["tiro del tigre"],
    "El \u0027Tiro del Tigre\u0027 de Hyuga es uno de los más recordados de Oliver y Benji."),
  (Trigger.anyOf ["tiro con efecto", "tiro banana"],
    "El \u0027Tiro con Efecto\u0027 de Oliver Atom era imparable para muchos porteros."),
  (Trigger.anyOf ["tiro combinado", "tiro en pareja"],
    "Los tiros combinados mostraban la fuerza de la amistad en el campo."),
  (Trigger.anyOf ["tiro del halcon", "halcon"],
    "El \u0027Tiro del Halcón\u0027 era pura fantasía futbolera."),
  (Trigger.anyOf ["tiro del dragon"],
    "El \u0027Tiro del Dragón\u0027 de Kojiro Hyuga era pura potencia y garra."),
  (Trigger.anyOf ["tiro celestial", "tiro del cielo"],
    "El \u0027Tiro Celestial\u0027 de Inazuma Eleven mostraba la magia del fútbol anime."),
  (Trigger.anyOf ["campo infinito", "cancha interminable"],
    "Oliver y Benji nos hicieron creer que el campo podía durar kilómetros."),
  (Trigger.anyOf ["balon de fuego"],
    "El \u0027Balón de Fuego\u0027 era uno de los supertiros más espectaculares de Inazuma Eleven."),
  (Trigger.anyOf ["super once", "equipo inazuma"],
    "El Super Once siempre demostraba que la amistad y el trabajo en equipo ganan partidos."),
  (Trigger.anyOf ["genzo wakabayashi", "benji price"],
    "Genzo Wakabayashi, conocido como Benji Price, el portero que nunca dejaba pasar un balón fácil."),
  (Trigger.anyOf ["fc 26", "ea sports fc 26"],
    "EA Sports FC 26 es la última entrega del simulador de fútbol, con novedades como los equipos Classic XI y mejoras jugables."),
  (Trigger.anyOf ["liga fantasy", "laliga fantasy"],
    "LALIGA Fantasy es el manager oficial de LALIGA, donde puedes crear tu equipo y competir con amigos."),
  (Trigger.anyOf ["classic xi", "equipos clasicos"],
    "En FC 26 puedes jugar con los Classic XI, equipos legendarios llenos de estrellas históricas."),
  (Trigger.anyOf ["eventos especiales", "clasico fantasy"],
    "LALIGA Fantasy organiza eventos especiales como El Clásico, El Derbi de Madrid o El Gran Derbi."),
  (Trigger.anyOf ["modo carrera", "career mode"],
    "En FC 26 el Modo Carrera te permite gestionar un club o vivir la carrera de un jugador."),
  (Trigger.anyOf ["ultimate team", "fut"],
    "Ultimate Team en FC 26 sigue siendo el modo estrella para crear tu plantilla soñada."),
  (Trigger.anyOf ["volta", "futbol callejero"],
    "VOLTA en FC 26 trae el fútbol callejero con estilo y jugadas espectaculares."),
  (Trigger.allOf ["clasico", "fantasy"],
    "En LALIGA Fantasy puedes vivir El Clásico con puntuaciones especiales y retos únicos."),
  (Trigger.allOf ["derbi", "fantasy"],
    "Los derbis en LALIGA Fantasy son emocionantes, con premios y puntuaciones extra."),
  (Trigger.anyOf ["capitan fantasy", "doble puntuacion"],
    "En LALIGA Fantasy tu capitán puntúa doble, eligiendo bien puedes ganar la jornada."),
  (Trigger.anyOf ["banquillo fantasy", "alineacion fantasy"],
    "En LALIGA Fantasy puedes usar tu banquillo y ajustar la alineación para maximizar puntos."),
  (Trigger.anyOf ["fichajes fantasy", "mercado fantasy"],
    "El mercado de LALIGA Fantasy te permite fichar y vender jugadores según su rendimiento real."),
  (Trigger.anyOf ["gilberto mora"],
    "Gilberto Mora debutó en FC 26 como una joven promesa con gran potencial."),
  (Trigger.anyOf ["estadisticas fantasy", "puntos fantasy"],
    "Las estadísticas de LALIGA Fantasy se basan en el rendimiento real de los jugadores cada jornada."),
  (Trigger.anyOf ["portada fc 26", "cover fc 26"],
    "La portada de FC 26 destaca a jóvenes estrellas como Bellingham y Musiala."),
  (Trigger.anyOf ["ventas fc 26", "exito fc 26"],
    "FC 26 arrasó en ventas físicas en España, liderando el mercado en PS5."),
  (Trigger.anyOf ["jugabilidad fc 26", "gameplay fc 26"],
    "La jugabilidad de FC 26 se refinó gracias a los comentarios de la comunidad."),
  (Trigger.anyOf ["promesas fc 26", "jugadores jovenes fc 26"],
    "En FC 26 aparecen jóvenes promesas como Gilberto Mora, con gran potencial de crecimiento."),
  (Trigger.anyOf ["liga fantasy premios", "recompensas fantasy"],
    "En LALIGA Fantasy se reparten premios cada jornada según tu rendimiento."),
  (Trigger.anyOf ["liga fantasy premium", "fantasy premium"],
    "La versión premium de LALIGA Fantasy incluye capitán con doble puntuación, banquillo y entrenador."),
  (Trigger.anyOf ["liga fantasy clasico", "evento clasico fantasy"],
    "En LALIGA Fantasy puedes vivir El Clásico con puntuaciones y retos especiales."),
  (Trigger.anyOf ["liga fantasy derbi", "evento derbi fantasy"],
    "Los derbis en LALIGA Fantasy son emocionantes, con bonificaciones y desafíos únicos."),
  (Trigger.anyOf ["liga fantasy fichajes", "mercado fantasy"],
    "El mercado de LALIGA Fantasy te permite fichar y vender jugadores según su rendimiento real."),
  (Trigger.anyOf ["liga fantasy temporada", "fantasy 25/26"],
    "La temporada 2025/26 de LALIGA Fantasy incluye fichajes actualizados y nuevas estrellas como Mbappé y Lamine Yamal."),
  (Trigger.anyOf ["segunda division", "laliga hypermotion"],
    "La Segunda División española, ahora llamada LaLiga Hypermotion, es donde los equipos luchan por subir a Primera."),
  (Trigger.anyOf ["ascenso", "subir a primera"],
    "El ascenso en LaLiga Hypermotion es el sueño de todos los equipos, con playoffs llenos de emoción."),
  (Trigger.anyOf ["descenso", "bajar a segunda"],
    "El descenso siempre es duro, pero forma parte de la emoción de las ligas españolas."),
  (Trigger.anyOf ["playoffs segunda", "promocion segunda"],
    "Los playoffs de ascenso en Segunda son partidos de máxima tensión y emoción."),
  (Trigger.anyOf ["liga femenina", "liga f"],
    "La Liga F es la máxima categoría del fútbol femenino en España, llena de talento y pasión."),
  (Trigger.anyOf ["seleccion femenina", "espana femenina"],
    "La selección femenina de España es campeona del mundo, un orgullo para el fútbol español."),
  (Trigger.anyOf ["champions femenina", "uwcl"],
    "La Champions femenina es el torneo más prestigioso de clubes, donde el Barça ha brillado en los últimos años, aunque el equipo con más champions es el OL Lyonnes."),
  (Trigger.anyOf ["equipos historicos segunda", "clasicos segunda"],
    "En Segunda han jugado equipos históricos como Zaragoza, Sporting o Deportivo, con gran tradición."),
  (Trigger.anyOf ["partidos de segunda", "jornada segunda"],
    "Cada jornada de LaLiga Hypermotion es clave, porque todos buscan subir o evitar el descenso."),
  (Trigger.anyOf ["futsal", "futbol sala"],
    "El futsal es fútbol en espacio reducido, lleno de técnica y velocidad."),
  (Trigger.anyOf ["liga nacional de futbol sala", "lnfs"],
    "La LNFS es la liga más importante de futsal en España, con equipos históricos como Inter Movistar y Barça."),
  (Trigger.anyOf ["mundial futsal", "copa del mundo futsal"],
    "El Mundial de futsal reúne a las mejores selecciones del mundo en un espectáculo único."),
  (Trigger.anyOf ["seleccion española futsal", "espana futsal"],
    "La selección española de futsal es una potencia mundial, con múltiples títulos europeos y mundiales."),
  (Trigger.anyOf ["inter movistar", "movistar inter"],
    "Movistar Inter es uno de los clubes más exitosos del futsal, con muchos títulos nacionales e internacionales."),
  (Trigger.anyOf ["barça futsal", "barcelona futsal"],
    "El Barça futsal es un referente en España y Europa, con gran talento en su plantilla."),
  (Trigger.anyOf ["ricardinho"],
    "Ricardinho es considerado uno de los mejores jugadores de futsal de la historia, con magia en cada jugada."),
  (Trigger.anyOf ["partido futsal", "jornada futsal"],
    "Los partidos de futsal son rápidos y emocionantes, cada jugada puede terminar en gol."),
  (Trigger.anyOf ["tecnica futsal", "habilidad futsal"],
    "El futsal destaca por la técnica individual, el control del balón y las jugadas espectaculares."),
  (Trigger.anyOf ["champions futsal", "uefa futsal"],
    "La UEFA Futsal Champions League es el torneo más prestigioso de clubes en Europa."),
  (Trigger.anyOf ["wwe", "lucha libre"],
    "Esto no es WWE, pero en el fútbol también hay choques que parecen combates."),
  (Trigger.anyOf ["john cena", "the rock"],
    "John Cena y The Rock son estrellas de WWE, pero en el fútbol los ídolos también levantan pasiones."),
  (Trigger.anyOf ["undertaker"],
    "El Undertaker dominaba el ring, igual que algunos equipos dominan el campo de fútbol."),
  (Trigger.anyOf ["naruto"],
    "Naruto soñaba con ser Hokage, igual que muchos sueñan con ser campeones de liga."),
  (Trigger.anyOf ["sasuke"],
    "Sasuke buscaba poder, como un delantero que siempre quiere marcar más goles."),
  (Trigger.anyOf ["kamehameha", "rasengan"],
    "Eso suena más a anime, pero en el fútbol también hay tiros que parecen poderes especiales."),
  (Trigger.anyOf ["uchiha", "sharingan"],
    "El Sharingan todo lo ve, como un buen mediocentro que controla el partido."),
  (Trigger.anyOf ["wrestlemania"],
    "WrestleMania es el gran evento de WWE, como una final de Champions en el fútbol."),
  (Trigger.anyOf ["anime", "manga"],
    "El anime tiene batallas épicas, igual que el fútbol tiene partidos inolvidables."),
  (Trigger.anyOf ["hokage"],
    "Ser Hokage en Naruto es como levantar la Copa del Mundo en fútbol: el máximo sueño."),
  (Trigger.anyOf ["triple h", "pedigree"],
    "El \u0027Pedigree\u0027 de Triple H es letal en WWE, como un golazo en el último minuto."),
  (Trigger.anyOf ["rey mysterio", "619"],
    "El 619 de Rey Mysterio es pura agilidad, igual que un regate eléctrico en fútbol."),
  (Trigger.anyOf ["roman reigns", "jefe tribal"],
    "Roman Reigns domina WWE como un capitán que manda en el vestuario de fútbol."),
  (Trigger.anyOf ["naruto vs sasuke"],
    "Naruto vs Sasuke es como un Clásico Barça-Madrid: rivalidad eterna y llena de emoción."),
  (Trigger.anyOf ["itachi", "uchiha"],
    "Itachi veía todo con el Sharingan, como un mediocentro que controla el ritmo del partido."),
  (Trigger.anyOf ["madara"],
    "Madara Uchiha era imparable, como un delantero que no deja de marcar goles."),
  (Trigger.anyOf ["jiraiya", "sabio"],
    "Jiraiya enseñaba a Naruto, igual que un buen entrenador guía a su equipo."),
  (Trigger.anyOf ["wrestlemania"],
    "WrestleMania es el evento máximo de WWE, como una final de Champions en fútbol."),
  (Trigger.anyOf ["hokage"],
    "Ser Hokage en Naruto es como levantar la Copa del Mundo: el sueño más grande."),
  (Trigger.anyOf ["jutsu", "tecnica ninja"],
    "Los jutsus en Naruto son como las jugadas ensayadas en fútbol: pura estrategia y sorpresa."),
  (Trigger.anyOf ["brock lesnar", "suplex"],
    "Brock Lesnar hacía suplex en WWE, como un defensa que despeja con fuerza cada balón."),
  (Trigger.anyOf ["randy orton", "rko"],
    "El RKO de Randy Orton es inesperado, como un gol de chilena en el último minuto."),
  (Trigger.anyOf ["kane", "demonio rojo"],
    "Kane imponía respeto en WWE, igual que un portero que intimida a los delanteros."),
  (Trigger.anyOf ["naruto run", "correr como naruto"],
    "Correr como Naruto es como un extremo desbordando por la banda con velocidad imparable."),
  (Trigger.anyOf ["gaara", "arena"],
    "Gaara controlaba la arena, como un mediocentro que controla el ritmo del partido."),
  (Trigger.anyOf ["rock lee", "taijutsu"],
    "Rock Lee entrenaba sin descanso, como un jugador que nunca se rinde en el campo."),
  (Trigger.anyOf ["orochimaru", "serpiente"],
    "Orochimaru era astuto y peligroso, como un delantero que aparece donde menos lo esperas."),
  (Trigger.anyOf ["naruto shippuden", "shippuden"],
    "Naruto Shippuden mostró batallas épicas, como las finales de Champions en fútbol."),
  (Trigger.anyOf ["campeon wwe", "titulo wwe"],
    "Ser campeón en WWE es como levantar la Copa del Mundo en fútbol: gloria absoluta."),
  (Trigger.anyOf ["akatsuki", "villanos naruto"],
    "La Akatsuki era temida en Naruto, como un equipo rival que nadie quiere enfrentar."),
  (Trigger.anyOf ["haku"],
    "Haku dominaba el hielo en Naruto, como un portero que congela cada intento de gol."),
  (Trigger.anyOf ["stephanie vaquer"],
    "Stephanie Vaquer, \u0027La Primera\u0027, como la hinchada que abre el camino y nunca deja de alentar."),
  (Trigger.anyOf ["rhea ripley"],
    "Rhea Ripley juega con Brutalidad, como un mediocentro que barre todo lo que pasa por su zona."),
  (Trigger.anyOf ["dominik mysterio"],
    "El sucio Dom, el ginecólogo del ring, es como ese equipo que siempre hace trampas para ganar."),
  (Trigger.anyOf ["tenten"],
    "Tenten dominaba las armas ninja, como un jugador que domina todas las posiciones en el campo."),
  (Trigger.anyOf ["bron breakker"],
    "Bron Breakker es pura fuerza en WWE, como un delantero tanque que arrasa defensas."),
  (Trigger.anyOf ["jey uso", "uso"],
    "Four letters, one word, YEET!"),
  (Trigger.anyOf ["chelsea green"],
    "Chelsea Green destaca en WWE, como una jugadora que siempre sorprende con su estilo."),
  (Trigger.anyOf ["kiba", "akamaru"],
    "Kiba y Akamaru eran inseparables, como un dúo de delanteros que siempre juegan en pareja."),
  (Trigger.anyOf ["sheamus", "brogue kick"],
    "El Brogue Kick de Sheamus es devastador, como un disparo de fuera del área que rompe la red."),
  (Trigger.anyOf ["itachi sacrificio", "itachi hermano"],
    "El sacrificio de Itachi por Sasuke es como un capitán que da todo por su equipo."),
  (Trigger.anyOf ["itachi genjutsu", "genjutsu"],
    "El genjutsu de Itachi confundía rivales, como una jugada táctica que descoloca a la defensa.")]

/-- `get_smalltalk` from `chatbot.py`: normalize the question, then return the
response of the first branch whose trigger fires, `none` otherwise. -/
def get_smalltalk (question : String) : Option String :=
  let q := normalize question
  (smalltalkTable.find? (fun e => e.1.matches q)).map (fun e => e.2)

/-! ## The data store and the structured fact matchers

Each Supabase query is an `Except`-valued access: `Except.error` models a
raised exception (store/API error, or `KeyError` for a missing dict key),
propagating through `do`-blocks exactly as a Python exception propagates. -/

inductive PyErr where
  | storeErr
  | keyErr
deriving DecidableEq

structure CompRow where
  id : ℤ
  name : String
  season : String
  type : String
  gender : String
  active : Bool
deriving DecidableEq

structure InfoTeamRow where
  id : ℤ
  name : String
  city : String
  province : String
  president : String
  founded_year : ℤ
  stadium : String
deriving DecidableEq

structure PlayerRow where
  id : ℤ
  name : String
  nationality : String
  position : String
  jersey_number : ℤ
  height : ℚ
  weight : ℚ
  team_id : ℤ
deriving DecidableEq

structure RefRow where
  id : ℤ
  name : String
  nationality : String
  debut : String
deriving DecidableEq

/-- A `referee_stats` row: `referee_id` plus a column-name → value mapping
(Python rows are dicts whose statistic columns are accessed by name). -/
structure RefStatRow where
  referee_id : ℤ
  col : String → ℤ

/-- A `stats` row: `player_id` plus a column-name → value mapping. -/
structure StatRow where
  player_id : ℤ
  col : String → ℤ

structure StadiumRow where
  id : ℤ
  name : String
  city : String
  capacity : ℤ
  year_construction : ℤ
deriving DecidableEq

structure TeamRow where
  id : ℤ
  name : String
  city : String
  province : String
  founded_year : ℤ
  stadium_id : ℤ
deriving DecidableEq

/-- The external collaborators: the embedding model and one accessor per
table read by the pipeline. -/
structure Store where
  embed : String → List ℚ
  competitions : Except PyErr (List CompRow)
  information_team : Except PyErr (List InfoTeamRow)
  players : Except PyErr (List PlayerRow)
  referees : Except PyErr (List RefRow)
  referee_stats : Except PyErr (List RefStatRow)
  stadiums : Except PyErr (List StadiumRow)
  stats : Except PyErr (List StatRow)
  teams : Except PyErr (List TeamRow)
  document_embeddings : Except PyErr (List EmbRow)

/-- `supabase.table("players").select("name").eq("id", i)`. -/
def Store.playersNameById (st : Store) (i : ℤ) : Except PyErr (List String) :=
  st.players.map (fun ps => (ps.filter (fun p => decide (p.id = i))).map (fun p => p.name))

/-- `supabase.table("teams").select("name").eq("id", i)`. -/
def Store.teamNameById (st : Store) (i : ℤ) : Except PyErr (List String) :=
  st.teams.map (fun ts => (ts.filter (fun t => decide (t.id = i))).map (fun t => t.name))

/-- `supabase.table("referees").select("name").eq("id", i)`. -/
def Store.refereeNameById (st : Store) (i : ℤ) : Except PyErr (List String) :=
  st.referees.map (fun rs => (rs.filter (fun r => decide (r.id = i))).map (fun r => r.name))

/-- `supabase.table("stadiums").select("name").eq("id", i)`. -/
def Store.stadiumNameById (st : Store) (i : ℤ) : Except PyErr (List String) :=
  st.stadiums.map (fun ss => (ss.filter (fun t => decide (t.id = i))).map (fun t => t.name))

/-- `supabase.table("teams").select("name").eq("stadium_id", i)`. -/
def Store.teamNameByStadiumId (st : Store) (i : ℤ) : Except PyErr (List String) :=
  st.teams.map (fun ts => (ts.filter (fun t => decide (t.stadium_id = i))).map (fun t => t.name))

structure TopRow where
  player_id : Option ℤ
  value : ℤ
deriving DecidableEq

def stadiumCol (r : StadiumRow) (c : String) : ℤ :=
  if c = "capacity" then r.capacity
  else if c = "year_construction" then r.year_construction
  else 0

/-- `.order(column, desc=True).limit(1)`. -/
def top1 (rows : List TopRow) : List TopRow :=
  (rows.mergeSort (fun x y => decide (y.value ≤ x.value))).take 1

/-- The query issued by `get_top_entity`:
`supabase.table(table).select("player_id, " + column).order(column, desc=True).limit(1)`.
Only the `stats` table has a `player_id` column; `referee_stats` and
`stadiums` rows have no such column, so the selected `player_id` is absent
(`none`) for them — the real PostgREST backend would reject the unknown
column outright, and either way the subsequent `top["player_id"]` access
cannot yield a player id. -/
def Store.topQuery (st : Store) (table column : String) : Except PyErr (List TopRow) :=
  if table = "stats" then
    st.stats.map (fun rows => top1 (rows.map (fun r => ⟨some r.player_id, r.col column⟩)))
  else if table = "referee_stats" then
    st.referee_stats.map (fun rows => top1 (rows.map (fun r => ⟨none, r.col column⟩)))
  else if table = "stadiums" then
    st.stadiums.map (fun rows => top1 (rows.map (fun r => ⟨none, stadiumCol r column⟩)))
  else Except.ok []

/-- `get_top_entity` from `chatbot.py`: first-match scan of `STAT_MAP`, then a
top-1 query on the mapped table/column, then `top["player_id"]` (a `KeyError`
when that key is absent) and a name lookup in `players`. -/
def get_top_entity (st : Store) (question : String) : Except PyErr (Option String) :=
  let q := strLower question
  match statLookup q with
  | none => Except.ok none
  | some e => do
      let rows ← st.topQuery e.table e.column
      match rows with
      | [] => pure (some ("No se encuentra información sobre " ++ e.label ++ "."))
      | top :: _ => do
          let pid ← (match top.player_id with
            | some v => pure v
            | none => Except.error PyErr.keyErr)
          let names ← st.playersNameById pid
          let pname := names.headD "desconocido"
          pure (some ("El jugador con más " ++ e.label ++ " es " ++ pname ++
            ", con " ++ toString top.value ++ " " ++ e.label ++ "."))

def get_competition_info (st : Store) (question : String) : Except PyErr (Option String) := do
  let q := strLower question
  let comps ← st.competitions
  match comps.find? (fun c => strIn (strLower c.name) q) with
  | none => pure none
  | some c => pure (some ("La competición " ++ c.name ++ " (temporada " ++ c.season ++
      "), tipo " ++ c.type ++ ", género " ++ c.gender ++ ", activa: " ++
      toString c.active ++ "."))

def get_information_team_info (st : Store) (question : String) : Except PyErr (Option String) := do
  let q := strLower question
  let teams ← st.information_team
  match teams.find? (fun t => strIn (strLower t.name) q) with
  | none => pure none
  | some t => pure (some ("El equipo " ++ t.name ++ " está en " ++ t.city ++ " (" ++
      t.province ++ "), presidente " ++ t.president ++ ", fundado en " ++
      toString t.founded_year ++ ", estadio " ++ t.stadium ++ "."))

def get_player_info (st : Store) (question : String) : Except PyErr (Option String) := do
  let q := strLower question
  let players ← st.players
  match players.find? (fun p => strIn (strLower p.name) q) with
  | none => pure none
  | some p => do
      let tnames ← st.teamNameById p.team_id
      let team_name := tnames.headD "desconocido"
      pure (some (p.name ++ " juega como " ++ p.position ++ ", dorsal " ++
        toString p.jersey_number ++ ", nacionalidad " ++ p.nationality ++ ", altura " ++
        toString p.height ++ "m, peso " ++ toString p.weight ++ "kg, equipo " ++
        team_name ++ "."))

def get_referee_info (st : Store) (question : String) : Except PyErr (Option String) := do
  let q := strLower question
  let refs ← st.referees
  match refs.find? (fun r => strIn (strLower r.name) q) with
  | none => pure none
  | some r => pure (some ("Árbitro " ++ r.name ++ ", nacionalidad " ++ r.nationality ++
      ", debut " ++ r.debut ++ "."))

/-- The row loop of `get_referee_stats_info`: one `referees` lookup per row,
then the substring test on the resolved name. -/
def refereeStatsLoop (st : Store) (q : String) :
    List RefStatRow → Except PyErr (Option String)
  | [] => pure none
  | stat :: rest => do
      let rnames ← st.refereeNameById stat.referee_id
      let ref_name := rnames.headD "desconocido"
      if strIn (strLower ref_name) q then
        pure (some ("Estadísticas de " ++ ref_name ++ ": amarillas " ++
          toString (stat.col "yellow_cards") ++ ", rojas " ++
          toString (stat.col "red_cards") ++ ", victorias " ++
          toString (stat.col "wins") ++ ", empates " ++
          toString (stat.col "draws") ++ ", derrotas " ++
          toString (stat.col "defeats") ++ "."))
      else refereeStatsLoop st q rest

def get_referee_stats_info (st : Store) (question : String) : Except PyErr (Option String) := do
  let q := strLower question
  let stats ← st.referee_stats
  refereeStatsLoop st q stats

def get_stadium_info (st : Store) (question : String) : Except PyErr (Option String) := do
  let q := strLower question
  let stadiums ← st.stadiums
  match stadiums.find? (fun sd => strIn (strLower sd.name) q) with
  | none => pure none
  | some sd => pure (some ("El estadio " ++ sd.name ++ " está en " ++ sd.city ++
      ", capacidad " ++ toString sd.capacity ++ ", construido en " ++
      toString sd.year_construction ++ "."))

def get_team_by_stadium (st : Store) (question : String) : Except PyErr (Option String) := do
  let q := normalize question
  let stadiums ← st.stadiums
  match stadiums.find? (fun sd => strIn (normalize sd.name) q) with
  | none => pure none
  | some sd => do
      let tnames ← st.teamNameByStadiumId sd.id
      match tnames with
      | t :: _ => pure (some ("El equipo que juega en " ++ sd.name ++ " es " ++ t ++ "."))
      | [] => pure (some ("No se encuentra equipo asociado al estadio " ++ sd.name ++ "."))

/-- The row loop of `get_player_stats`: one `players` lookup per row, then the
substring test on the resolved name. -/
def playerStatsLoop (st : Store) (q : String) :
    List StatRow → Except PyErr (Option String)
  | [] => pure none
  | stat :: rest => do
      let pnames ← st.playersNameById stat.player_id
      let player_name := pnames.headD "desconocido"
      if strIn (strLower player_name) q then
        pure (some ("Estadísticas de " ++ player_name ++ ": goles " ++
          toString (stat.col "goals") ++ ", asistencias " ++
          toString (stat.col "assists") ++ ", partidos " ++
          toString (stat.col "games_played") ++ ", amarillas " ++
          toString (stat.col "yellow_card") ++ ", rojas " ++
          toString (stat.col "red_card") ++ "."))
      else playerStatsLoop st q rest

def get_player_stats (st : Store) (question : String) : Except PyErr (Option String) := do
  let q := strLower question
  let stats ← st.stats
  playerStatsLoop st q stats

def get_team_info (st : Store) (question : String) : Except PyErr (Option String) := do
  let q := normalize question
  let teams ← st.teams
  match teams.find? (fun t => strIn (normalize t.name) q) with
  | none => pure none
  | some t => do
      let snames ← st.stadiumNameById t.stadium_id
      let stadium_name := snames.headD "desconocido"
      pure (some ("Equipo " ++ t.name ++ " de " ++ t.city ++ " (" ++ t.province ++
        "), fundado en " ++ toString t.founded_year ++ ", estadio " ++
        stadium_name ++ "."))

def get_team_city (st : Store) (question : String) : Except PyErr (Option String) := do
  let q := normalize question
  let teams ← st.teams
  match teams.find? (fun t => strIn (normalize t.name) q && strIn "ciudad" q) with
  | none => pure none
  | some t => pure (some ("El " ++ t.name ++ " está en la ciudad de " ++ t.city ++ "."))

/-! ## The chat orchestrator -/

/-- One evidence item; the source rounds the float score to 4 decimals for
display, here the exact score is kept. -/
structure SourceRef where
  table : String
  id : ℤ
  score : Score
deriving DecidableEq

structure ChatResponse where
  answer : String
  sources : List SourceRef
deriving DecidableEq

/-- The fixed matcher chain of step 3 of `chat`, in source order. -/
def matcherChain : List (Store → String → Except PyErr (Option String)) :=
  [get_competition_info, get_information_team_info, get_player_info, get_referee_info,
   get_referee_stats_info, get_stadium_info, get_team_by_stadium, get_player_stats,
   get_team_info, get_team_city]

/-- `for func in [...]: answer = func(q); if answer: return ...` -/
def tryMatchers (st : Store) (q : String) :
    List (Store → String → Except PyErr (Option String)) → Except PyErr (Option String)
  | [] => pure none
  | f :: fs => do
      let a ← f st q
      match a with
      | some ans => pure (some ans)
      | none => tryMatchers st q fs

/-- The `/chat` endpoint handler from `chatbot.py`: normalize, then try the
superlative resolver, smalltalk, the matcher chain, retrieval + synthesis,
and finally the fixed fallback. -/
def chat (st : Store) (question : String) : Except PyErr ChatResponse := do
  let q := normalize question
  let a1 ← get_top_entity st q
  match a1 with
  | some ans => pure ⟨ans, []⟩
  | none =>
    match get_smalltalk q with
    | some ans => pure ⟨ans, []⟩
    | none => do
      let a3 ← tryMatchers st q matcherChain
      match a3 with
      | some ans => pure ⟨ans, []⟩
      | none => do
        let rows ← st.document_embeddings
        let chunks := retrieve_context (st.embed question) rows 5 (7/10)
        if chunks.isEmpty then
          pure ⟨"No hay datos suficientes en la BBDD.", []⟩
        else
          pure ⟨generate_answer question chunks,
            chunks.map (fun c => ⟨c.1.source_table, c.1.source_id, c.2⟩)⟩

/-! ## Evaluation helpers and concrete stores -/

lemma except_bind_ok {α β : Type} (a : α) (f : α → Except PyErr β) :
    (Except.ok a >>= f) = f a := rfl

lemma except_pure_bind {α β : Type} (a : α) (f : α → Except PyErr β) :
    ((pure a : Except PyErr α) >>= f) = f a := rfl

lemma retrieve_context_nil (qvec : List ℚ) (k : ℕ) (t : ℚ) :
    retrieve_context qvec [] k t = [] := by
  unfold retrieve_context
  rw [List.filterMap_nil, List.mergeSort_nil, List.take_nil]

/-- A store with every table empty and a trivial embedding model. -/
def emptyStore : Store :=
  ⟨fun _ => [], Except.ok [], Except.ok [], Except.ok [], Except.ok [],
    Except.ok [], Except.ok [], Except.ok [], Except.ok [], Except.ok []⟩

lemma data_eq_nil {s : String} (h : s.data = []) : s = "" := by
  cases s with
  | mk l => rw [show l = [] from h]

lemma append_eq_empty {s t : String} (h : s ++ t = "") : s = "" ∧ t = "" := by
  have hd := congrArg String.data h
  rw [String.data_append] at hd
  have hnil := List.append_eq_nil.mp hd
  exact ⟨data_eq_nil hnil.1, data_eq_nil hnil.2⟩

lemma dot_ne_empty (s : String) : s ++ "." ≠ "" := by
  intro h
  exact absurd (append_eq_empty h).2 (by decide)

/-! ## C10 — diacritic STAT_MAP keys are unreachable from `chat` -/

def statLookupOver (l : List StatEntry) (q : String) : Option StatEntry :=
  l.find? (fun e => strIn e.keyword q)

/-- The superlative vocabulary restricted to accent-free keys. -/
def statMapAccentFree : List StatEntry :=
  STAT_MAP.filter (fun e => e.keyword.data.all (fun c => decide (c ∉ accChars)))

lemma find?_filter_of_false {α : Type} (p keep : α → Bool) :
    ∀ l : List α, (∀ e ∈ l, keep e = false → p e = false) →
      l.find? p = (l.filter keep).find? p := by
  intro l
  induction l with
  | nil => intro _; rfl
  | cons x xs ih =>
      intro h
      by_cases hk : keep x = true
      · rw [List.filter_cons_of_pos hk]
        by_cases hp : p x = true
        · rw [List.find?_cons_of_pos _ hp, List.find?_cons_of_pos _ hp]
        · rw [List.find?_cons_of_neg _ hp, List.find?_cons_of_neg _ hp]
          exact ih (fun e he => h e (List.mem_cons_of_mem _ he))
      · have hkf : keep x = false := Bool.of_not_eq_true hk
        rw [List.filter_cons_of_neg hk]
        have hp : p x = false := h x (List.mem_cons_self _ _) hkf
        rw [List.find?_cons_of_neg _ (by rw [hp]; exact Bool.false_ne_true)]
        exact ih (fun e he => h e (List.mem_cons_of_mem _ he))

/-- C10 — `chat` hands `get_top_entity` the diacritic-stripped normalized
question, while several `STAT_MAP` keys keep their accents (`"porterías a
cero"`, `"último hombre"`, the `árbitro` keys, `"año construcción estadio"`):
lowercasing the normalized question changes nothing, an accented key is never
a substring of it, and the first-match scan therefore behaves exactly as if
those entries were absent. -/
theorem statmap_diacritic_keys_unreachable (question : String) :
    strLower (normalize question) = normalize question ∧
    (∀ e ∈ STAT_MAP, (∃ c ∈ e.keyword.data, c ∈ accChars) →
      strIn e.keyword (normalize question) = false) ∧
    statLookup (normalize question) =
      statLookupOver statMapAccentFree (normalize question) := by
  refine ⟨strLower_normalize question, ?_, ?_⟩
  · rintro e _ ⟨c, hc, hacc⟩
    exact strIn_acc_normalize_false hc hacc question
  · unfold statLookup statLookupOver statMapAccentFree
    apply find?_filter_of_false
    intro e _ hkeep
    rcases List.all_eq_false.mp hkeep with ⟨c, hc, hnacc⟩
    have hacc : c ∈ accChars := by
      by_contra hn
      exact hnacc (by simp [hn])
    exact strIn_acc_normalize_false hc hacc question

theorem statmap_diacritic_keys_unreachable_witness :
    strIn "porterías a cero" (normalize "cuantas porterías a cero lleva el portero") = false :=
  (statmap_diacritic_keys_unreachable "cuantas porterías a cero lleva el portero").2.1
    ⟨"porterías a cero", "stats", "clean_sheet", "porterías a cero"⟩
    (by decide) ⟨'í', by decide, by decide⟩

/-! ## C4 — overlapping STAT_MAP phrases are misordered -/

/-- Store holding one player-stats row (all columns valued 5) for player 9 and
that player's name. -/
def yellowStore : Store :=
  { emptyStore with
    stats := Except.ok [⟨9, fun _ => 5⟩],
    players := Except.ok [⟨9, "Bellingham", "Inglaterra", "MC", 5, 2, 75, 1⟩] }

/-- C4 — the vocabulary is NOT ordered most-specific first: the player-stats
key `"tarjetas amarillas"` precedes `"tarjetas amarillas árbitro"`, so for a
question containing the latter the first-match scan selects the player-stats
entry (`stats.yellow_card`), and `chat` answers from the player stats table
instead of `referee_stats.yellow_cards`. -/
theorem statmap_overlap_misroutes :
    statLookup (strLower (normalize "¿Quién tiene más tarjetas amarillas árbitro?")) =
      some ⟨"tarjetas amarillas", "stats", "yellow_card", "tarjetas amarillas"⟩ ∧
    (⟨"tarjetas amarillas árbitro", "referee_stats", "yellow_cards",
      "tarjetas amarillas mostradas"⟩ : StatEntry) ∈ STAT_MAP ∧
    chat yellowStore "¿Quién tiene más tarjetas amarillas árbitro?" =
      Except.ok ⟨"El jugador con más tarjetas amarillas es Bellingham, con 5 tarjetas amarillas.", []⟩ := by
  have hlook : statLookup (strLower (normalize "¿Quién tiene más tarjetas amarillas árbitro?")) =
      some ⟨"tarjetas amarillas", "stats", "yellow_card", "tarjetas amarillas"⟩ := by decide
  refine ⟨hlook, by decide, ?_⟩
  have htq : yellowStore.topQuery "stats" "yellow_card" = Except.ok [⟨some 9, 5⟩] := by
    unfold Store.topQuery
    rw [if_pos rfl]
    show Except.ok (top1 [⟨some 9, (5 : ℤ)⟩]) = _
    unfold top1
    rw [List.mergeSort_singleton]
    rfl
  have hgte : get_top_entity yellowStore (normalize "¿Quién tiene más tarjetas amarillas árbitro?") =
      Except.ok (some "El jugador con más tarjetas amarillas es Bellingham, con 5 tarjetas amarillas.") := by
    unfold get_top_entity
    dsimp only
    rw [hlook]
    dsimp only
    rw [htq, except_bind_ok]
    rfl
  unfold chat
  dsimp only
  rw [hgte, except_bind_ok]
  rfl

/-! ## C1 — the stadium-capacity superlative raises instead of answering -/

def stadiumStore : Store :=
  { emptyStore with
    stadiums := Except.ok [⟨1, "Santiago Bernabeu", "Madrid", 81044, 1947⟩] }

/-- C1 — with a non-empty stadiums table, the question `"capacidad estadio"`
does select the stadium-capacity `STAT_MAP` entry, but `get_top_entity`
selects `player_id` from the `stadiums` table (which has no such column) and
resolves the name via the `players` table, so the request raises
(`KeyError`/store error) instead of returning the top-capacity answer with
empty sources. -/
theorem stadium_superlative_raises :
    statLookup (strLower (normalize "capacidad estadio")) =
      some ⟨"capacidad estadio", "stadiums", "capacity", "capacidad del estadio"⟩ ∧
    stadiumStore.stadiums = Except.ok [⟨1, "Santiago Bernabeu", "Madrid", 81044, 1947⟩] ∧
    chat stadiumStore "capacidad estadio" = Except.error PyErr.keyErr := by
  have hlook : statLookup (strLower (normalize "capacidad estadio")) =
      some ⟨"capacidad estadio", "stadiums", "capacity", "capacidad del estadio"⟩ := by decide
  refine ⟨hlook, rfl, ?_⟩
  have htq : stadiumStore.topQuery "stadiums" "capacity" =
      Except.ok [⟨none, 81044⟩] := by
    unfold Store.topQuery
    rw [if_neg (by decide), if_neg (by decide), if_pos rfl]
    show Except.ok (top1 [⟨none, (81044 : ℤ)⟩]) = _
    unfold top1
    rw [List.mergeSort_singleton]
    rfl
  have hgte : get_top_entity stadiumStore (normalize "capacidad estadio") =
      Except.error PyErr.keyErr := by
    unfold get_top_entity
    dsimp only
    rw [hlook]
    dsimp only
    rw [htq, except_bind_ok]
    rfl
  unfold chat
  dsimp only
  rw [hgte]
  rfl

/-! ## C2 — a store error inside a matcher stage aborts the whole chain -/

def competitionsErrStore : Store :=
  { emptyStore with competitions := Except.error PyErr.storeErr }

lemma chat_error_of_competitions (st : Store) (question : String) (e : PyErr)
    (h1 : get_top_entity st (normalize question) = Except.ok none)
    (h2 : get_smalltalk (normalize question) = none)
    (h3 : st.competitions = Except.error e) :
    chat st question = Except.error e := by
  have hcomp : get_competition_info st (normalize question) = Except.error e := by
    unfold get_competition_info
    rw [h3]
    rfl
  have hchain : tryMatchers st (normalize question) matcherChain = Except.error e := by
    show tryMatchers st (normalize question)
      (get_competition_info :: [get_information_team_info, get_player_info,
        get_referee_info, get_referee_stats_info, get_stadium_info,
        get_team_by_stadium, get_player_stats, get_team_info, get_team_city]) = _
    unfold tryMatchers
    rw [hcomp]
    rfl
  unfold chat
  dsimp only
  rw [h1, except_bind_ok]
  dsimp only
  rw [h2]
  dsimp only
  rw [hchain]
  rfl

/-- C2 counterexample — the stages are NOT wrapped: a store error raised while
the competition matcher fetches its table propagates out of `chat` as an
exception; the chain never reaches the terminal fallback. -/
theorem chat_raises_on_store_error :
    competitionsErrStore.competitions = Except.error PyErr.storeErr ∧
    chat competitionsErrStore "zzz" = Except.error PyErr.storeErr :=
  ⟨rfl, chat_error_of_competitions _ _ _ rfl rfl rfl⟩

/-- C2 amended — only the per-row similarity computation inside
`retrieve_context` is guarded by a `try/except`; no pipeline stage is
wrapped, so a store error raised inside a matcher stage (here: the
competitions fetch) propagates out of `chat` unchanged whenever the earlier
stages found no match. -/
theorem chat_store_error_propagates (st : Store) (question : String) (e : PyErr)
    (h1 : get_top_entity st (normalize question) = Except.ok none)
    (h2 : get_smalltalk (normalize question) = none)
    (h3 : st.competitions = Except.error e) :
    chat st question = Except.error e :=
  chat_error_of_competitions st question e h1 h2 h3

theorem chat_store_error_propagates_witness :
    chat competitionsErrStore "vvv" = Except.error PyErr.storeErr :=
  chat_store_error_propagates competitionsErrStore "vvv" PyErr.storeErr rfl rfl rfl

/-! ## C7 — terminal fallback and non-empty answers -/

lemma get_top_entity_ne_empty {st : Store} {q a : String}
    (h : get_top_entity st q = Except.ok (some a)) : a ≠ "" := by
  unfold get_top_entity at h
  dsimp only at h
  cases hlook : statLookup (strLower q) with
  | none =>
      rw [hlook] at h
      exact absurd (Except.ok.inj h) (by simp)
  | some e =>
      rw [hlook] at h
      dsimp only at h
      cases htq : st.topQuery e.table e.column with
      | error er => rw [htq] at h; exact Except.noConfusion h
      | ok rows =>
          rw [htq, except_bind_ok] at h
          cases rows with
          | nil =>
              have := Option.some.inj (Except.ok.inj h)
              rw [← this]
              exact dot_ne_empty _
          | cons top rest =>
              dsimp only at h
              cases hpid : top.player_id with
              | none => rw [hpid] at h; exact Except.noConfusion h
              | some v =>
                  rw [hpid] at h
                  dsimp only at h
                  rw [except_pure_bind] at h
                  cases hn : st.playersNameById v with
                  | error er => rw [hn] at h; exact Except.noConfusion h
                  | ok names =>
                      rw [hn, except_bind_ok] at h
                      have := Option.some.inj (Except.ok.inj h)
                      rw [← this]
                      exact dot_ne_empty _

set_option maxRecDepth 8192 in
lemma smalltalkTable_responses_ne_empty : ∀ e ∈ smalltalkTable, e.2 ≠ "" := by
  decide

lemma get_smalltalk_ne_empty {q a : String} (h : get_smalltalk q = some a) : a ≠ "" := by
  unfold get_smalltalk at h
  dsimp only at h
  cases hfind : smalltalkTable.find? (fun e => e.1.matches (normalize q)) with
  | none => rw [hfind] at h; exact Option.noConfusion h
  | some e =>
      rw [hfind] at h
      have hmem : e ∈ smalltalkTable := List.mem_of_find?_eq_some hfind
      have ha : e.2 = a := Option.some.inj h
      rw [← ha]
      exact smalltalkTable_responses_ne_empty e hmem

lemma get_competition_info_ne_empty {st : Store} {q a : String}
    (h : get_competition_info st q = Except.ok (some a)) : a ≠ "" := by
  unfold get_competition_info at h
  cases hc : st.competitions with
  | error er => rw [hc] at h; exact Except.noConfusion h
  | ok comps =>
      rw [hc, except_bind_ok] at h
      cases hfind : comps.find? (fun c => strIn (strLower c.name) (strLower q)) with
      | none => rw [hfind] at h; exact absurd (Except.ok.inj h) (by simp)
      | some c =>
          rw [hfind] at h
          have := Option.some.inj (Except.ok.inj h)
          rw [← this]
          exact dot_ne_empty _

lemma get_information_team_info_ne_empty {st : Store} {q a : String}
    (h : get_information_team_info st q = Except.ok (some a)) : a ≠ "" := by
  unfold get_information_team_info at h
  cases hc : st.information_team with
  | error er => rw [hc] at h; exact Except.noConfusion h
  | ok rows =>
      rw [hc, except_bind_ok] at h
      cases hfind : rows.find? (fun t => strIn (strLower t.name) (strLower q)) with
      | none => rw [hfind] at h; exact absurd (Except.ok.inj h) (by simp)
      | some t =>
          rw [hfind] at h
          have := Option.some.inj (Except.ok.inj h)
          rw [← this]
          exact dot_ne_empty _

lemma get_player_info_ne_empty {st : Store} {q a : String}
    (h : get_player_info st q = Except.ok (some a)) : a ≠ "" := by
  unfold get_player_info at h
  cases hc : st.players with
  | error er => rw [hc] at h; exact Except.noConfusion h
  | ok rows =>
      rw [hc, except_bind_ok] at h
      cases hfind : rows.find? (fun p => strIn (strLower p.name) (strLower q)) with
      | none => rw [hfind] at h; exact absurd (Except.ok.inj h) (by simp)
      | some p =>
          rw [hfind] at h
          dsimp only at h
          cases hn : st.teamNameById p.team_id with
          | error er => rw [hn] at h; exact Except.noConfusion h
          | ok names =>
              rw [hn, except_bind_ok] at h
              have := Option.some.inj (Except.ok.inj h)
              rw [← this]
              exact dot_ne_empty _

lemma get_referee_info_ne_empty {st : Store} {q a : String}
    (h : get_referee_info st q = Except.ok (some a)) : a ≠ "" := by
  unfold get_referee_info at h
  cases hc : st.referees with
  | error er => rw [hc] at h; exact Except.noConfusion h
  | ok rows =>
      rw [hc, except_bind_ok] at h
      cases hfind : rows.find? (fun r => strIn (strLower r.name) (strLower q)) with
      | none => rw [hfind] at h; exact absurd (Except.ok.inj h) (by simp)
      | some r =>
          rw [hfind] at h
          have := Option.some.inj (Except.ok.inj h)
          rw [← this]
          exact dot_ne_empty _

lemma refereeStatsLoop_ne_empty {st : Store} {q a : String} :
    ∀ rows, refereeStatsLoop st q rows = Except.ok (some a) → a ≠ "" := by
  intro rows
  induction rows with
  | nil =>
      intro h
      exact absurd (Except.ok.inj h) (by simp)
  | cons stat rest ih =>
      intro h
      unfold refereeStatsLoop at h
      cases hn : st.refereeNameById stat.referee_id with
      | error er => rw [hn] at h; exact Except.noConfusion h
      | ok names =>
          rw [hn, except_bind_ok] at h
          dsimp only at h
          by_cases hin : strIn (strLower (names.headD "desconocido")) q = true
          · rw [if_pos hin] at h
            have := Option.some.inj (Except.ok.inj h)
            rw [← this]
            exact dot_ne_empty _
          · rw [if_neg hin] at h
            exact ih h

lemma get_referee_stats_info_ne_empty {st : Store} {q a : String}
    (h : get_referee_stats_info st q = Except.ok (some a)) : a ≠ "" := by
  unfold get_referee_stats_info at h
  cases hc : st.referee_stats with
  | error er => rw [hc] at h; exact Except.noConfusion h
  | ok rows =>
      rw [hc, except_bind_ok] at h
      exact refereeStatsLoop_ne_empty rows h

lemma get_stadium_info_ne_empty {st : Store} {q a : String}
    (h : get_stadium_info st q = Except.ok (some a)) : a ≠ "" := by
  unfold get_stadium_info at h
  cases hc : st.stadiums with
  | error er => rw [hc] at h; exact Except.noConfusion h
  | ok rows =>
      rw [hc, except_bind_ok] at h
      cases hfind : rows.find? (fun sd => strIn (strLower sd.name) (strLower q)) with
      | none => rw [hfind] at h; exact absurd (Except.ok.inj h) (by simp)
      | some sd =>
          rw [hfind] at h
          have := Option.some.inj (Except.ok.inj h)
          rw [← this]
          exact dot_ne_empty _

lemma get_team_by_stadium_ne_empty {st : Store} {q a : String}
    (h : get_team_by_stadium st q = Except.ok (some a)) : a ≠ "" := by
  unfold get_team_by_stadium at h
  cases hc : st.stadiums with
  | error er => rw [hc] at h; exact Except.noConfusion h
  | ok rows =>
      rw [hc, except_bind_ok] at h
      cases hfind : rows.find? (fun sd => strIn (normalize sd.name) (normalize q)) with
      | none => rw [hfind] at h; exact absurd (Except.ok.inj h) (by simp)
      | some sd =>
          rw [hfind] at h
          dsimp only at h
          cases hn : st.teamNameByStadiumId sd.id with
          | error er => rw [hn] at h; exact Except.noConfusion h
          | ok names =>
              rw [hn, except_bind_ok] at h
              cases names with
              | nil =>
                  have := Option.some.inj (Except.ok.inj h)
                  rw [← this]
                  exact dot_ne_empty _
              | cons n rest =>
                  have := Option.some.inj (Except.ok.inj h)
                  rw [← this]
                  exact dot_ne_empty _

lemma playerStatsLoop_ne_empty {st : Store} {q a : String} :
    ∀ rows, playerStatsLoop st q rows = Except.ok (some a) → a ≠ "" := by
  intro rows
  induction rows with
  | nil =>
      intro h
      exact absurd (Except.ok.inj h) (by simp)
  | cons stat rest ih =>
      intro h
      unfold playerStatsLoop at h
      cases hn : st.playersNameById stat.player_id with
      | error er => rw [hn] at h; exact Except.noConfusion h
      | ok names =>
          rw [hn, except_bind_ok] at h
          dsimp only at h
          by_cases hin : strIn (strLower (names.headD "desconocido")) q = true
          · rw [if_pos hin] at h
            have := Option.some.inj (Except.ok.inj h)
            rw [← this]
            exact dot_ne_empty _
          · rw [if_neg hin] at h
            exact ih h

lemma get_player_stats_ne_empty {st : Store} {q a : String}
    (h : get_player_stats st q = Except.ok (some a)) : a ≠ "" := by
  unfold get_player_stats at h
  cases hc : st.stats with
  | error er => rw [hc] at h; exact Except.noConfusion h
  | ok rows =>
      rw [hc, except_bind_ok] at h
      exact playerStatsLoop_ne_empty rows h

lemma get_team_info_ne_empty {st : Store} {q a : String}
    (h : get_team_info st q = Except.ok (some a)) : a ≠ "" := by
  unfold get_team_info at h
  cases hc : st.teams with
  | error er => rw [hc] at h; exact Except.noConfusion h
  | ok rows =>
      rw [hc, except_bind_ok] at h
      cases hfind : rows.find? (fun t => strIn (normalize t.name) (normalize q)) with
      | none => rw [hfind] at h; exact absurd (Except.ok.inj h) (by simp)
      | some t =>
          rw [hfind] at h
          dsimp only at h
          cases hn : st.stadiumNameById t.stadium_id with
          | error er => rw [hn] at h; exact Except.noConfusion h
          | ok names =>
              rw [hn, except_bind_ok] at h
              have := Option.some.inj (Except.ok.inj h)
              rw [← this]
              exact dot_ne_empty _

lemma get_team_city_ne_empty {st : Store} {q a : String}
    (h : get_team_city st q = Except.ok (some a)) : a ≠ "" := by
  unfold get_team_city at h
  cases hc : st.teams with
  | error er => rw [hc] at h; exact Except.noConfusion h
  | ok rows =>
      rw [hc, except_bind_ok] at h
      cases hfind : rows.find? (fun t => strIn (normalize t.name) (normalize q) &&
          strIn "ciudad" (normalize q)) with
      | none => rw [hfind] at h; exact absurd (Except.ok.inj h) (by simp)
      | some t =>
          rw [hfind] at h
          have := Option.some.inj (Except.ok.inj h)
          rw [← this]
          exact dot_ne_empty _

lemma tryMatchers_ne_empty {st : Store} {q a : String} :
    ∀ fs, (∀ f ∈ fs, ∀ b : String, f st q = Except.ok (some b) → b ≠ "") →
      tryMatchers st q fs = Except.ok (some a) → a ≠ "" := by
  intro fs
  induction fs with
  | nil =>
      intro _ h
      exact absurd (Except.ok.inj h) (by simp)
  | cons f rest ih =>
      intro hall h
      unfold tryMatchers at h
      cases hf : f st q with
      | error er => rw [hf] at h; exact Except.noConfusion h
      | ok b =>
          rw [hf, except_bind_ok] at h
          cases b with
          | some ans =>
              have := Option.some.inj (Except.ok.inj h)
              rw [← this]
              exact hall f (List.mem_cons_self _ _) ans hf
          | none =>
              exact ih (fun g hg => hall g (List.mem_cons_of_mem _ hg)) h

lemma matcherChain_ne_empty (st : Store) (q : String) :
    ∀ f ∈ matcherChain, ∀ b : String, f st q = Except.ok (some b) → b ≠ "" := by
  intro f hf b
  simp only [matcherChain, List.mem_cons, List.not_mem_nil, or_false] at hf
  rcases hf with hf | hf | hf | hf | hf | hf | hf | hf | hf | hf
  · subst hf; exact get_competition_info_ne_empty
  · subst hf; exact get_information_team_info_ne_empty
  · subst hf; exact get_player_info_ne_empty
  · subst hf; exact get_referee_info_ne_empty
  · subst hf; exact get_referee_stats_info_ne_empty
  · subst hf; exact get_stadium_info_ne_empty
  · subst hf; exact get_team_by_stadium_ne_empty
  · subst hf; exact get_player_stats_ne_empty
  · subst hf; exact get_team_info_ne_empty
  · subst hf; exact get_team_city_ne_empty

/-- C7 — (i) when the superlative resolver, smalltalk and every structured
matcher find nothing and retrieval yields no chunk at or above the threshold,
`chat` returns the fixed fallback message with an empty sources list;
(ii) whenever `chat` returns a response at all, its answer is non-empty. -/
theorem chat_terminal_fallback :
    (∀ (st : Store) (question : String) (dEmb : List EmbRow),
      get_top_entity st (normalize question) = Except.ok none →
      get_smalltalk (normalize question) = none →
      tryMatchers st (normalize question) matcherChain = Except.ok none →
      st.document_embeddings = Except.ok dEmb →
      retrieve_context (st.embed question) dEmb 5 (7/10) = [] →
      chat st question = Except.ok ⟨"No hay datos suficientes en la BBDD.", []⟩) ∧
    (∀ (st : Store) (question : String) (resp : ChatResponse),
      chat st question = Except.ok resp → resp.answer ≠ "") := by
  constructor
  · intro st question dEmb h1 h2 h3 h4 h5
    unfold chat
    dsimp only
    rw [h1, except_bind_ok]
    dsimp only
    rw [h2]
    dsimp only
    rw [h3, except_bind_ok]
    rw [h4, except_bind_ok]
    dsimp only
    rw [h5]
    rfl
  · intro st question resp h
    unfold chat at h
    dsimp only at h
    cases hgte : get_top_entity st (normalize question) with
    | error e => rw [hgte] at h; exact Except.noConfusion h
    | ok a1 =>
        rw [hgte, except_bind_ok] at h
        cases a1 with
        | some ans =>
            have hr : ChatResponse.mk ans [] = resp := Except.ok.inj h
            rw [← hr]
            exact get_top_entity_ne_empty hgte
        | none =>
            dsimp only at h
            cases hsm : get_smalltalk (normalize question) with
            | some ans =>
                rw [hsm] at h
                have hr : ChatResponse.mk ans [] = resp := Except.ok.inj h
                rw [← hr]
                exact get_smalltalk_ne_empty hsm
            | none =>
                rw [hsm] at h
                dsimp only at h
                cases htm : tryMatchers st (normalize question) matcherChain with
                | error e => rw [htm] at h; exact Except.noConfusion h
                | ok a3 =>
                    rw [htm, except_bind_ok] at h
                    cases a3 with
                    | some ans =>
                        have hr : ChatResponse.mk ans [] = resp := Except.ok.inj h
                        rw [← hr]
                        exact tryMatchers_ne_empty matcherChain
                          (matcherChain_ne_empty st (normalize question)) htm
                    | none =>
                        dsimp only at h
                        cases hde : st.document_embeddings with
                        | error e => rw [hde] at h; exact Except.noConfusion h
                        | ok rows =>
                            rw [hde, except_bind_ok] at h
                            by_cases hchunks :
                                (retrieve_context (st.embed question) rows 5 (7/10)).isEmpty = true
                            · rw [if_pos hchunks] at h
                              have hr : ChatResponse.mk "No hay datos suficientes en la BBDD." [] =
                                  resp := Except.ok.inj h
                              rw [← hr]
                              decide
                            · rw [if_neg hchunks] at h
                              have hr := Except.ok.inj h
                              rw [← hr]
                              exact generate_answer_ne_empty question _

theorem chat_terminal_fallback_witness :
    chat emptyStore "xyzzy" = Except.ok ⟨"No hay datos suficientes en la BBDD.", []⟩ ∧
    "No hay datos suficientes en la BBDD." ≠ "" := by
  have h1 : chat emptyStore "xyzzy" =
      Except.ok ⟨"No hay datos suficientes en la BBDD.", []⟩ :=
    chat_terminal_fallback.1 emptyStore "xyzzy" [] rfl rfl rfl rfl
      (retrieve_context_nil _ _ _)
  exact ⟨h1, chat_terminal_fallback.2 emptyStore "xyzzy" _ h1⟩

/-! ## C5 — matcher substring semantics and the normalization inconsistency -/

def rodStore : Store :=
  { emptyStore with
    players := Except.ok [⟨1, "Rodríguez", "España", "DEL", 10, 2, 80, 3⟩],
    teams := Except.ok [⟨3, "Betis", "Sevilla", "Sevilla", 1907, 4⟩] }

/-- C5 counterexample — the player matcher only lowercases: the stored name
`"Rodríguez"` normalizes to a substring of the normalized question, yet
`get_player_info` (as called by `chat` on the normalized question) returns
`none`, because `"rodríguez"` (lowercased, accent kept) is not a substring of
the accent-stripped question. -/
theorem player_matcher_misses_diacritics :
    strIn (normalize "Rodríguez") (normalize "¿Quién es Rodríguez?") = true ∧
    get_player_info rodStore (normalize "¿Quién es Rodríguez?") = Except.ok none := by
  constructor
  · decide
  · rfl

lemma accChars_lower_fixed : ∀ c ∈ accChars, lowerChar c = c := by decide

/-- C5 amended — each structured matcher returns the formatted answer for the
FIRST fetched row whose compared name is a substring of the compared
question, and `none` when no row matches; but the comparison lowercases both
sides in most matchers (here: the player matcher) and fully normalizes both
sides only in the team matchers (here: `get_team_info`), so a stored name
containing a diacritic can never match the normalized question in the
lowercase-only matchers. -/
theorem matcher_substring_semantics :
    (∀ (st : Store) (q : String) (ps : List PlayerRow),
      st.players = Except.ok ps →
      (ps.find? (fun p => strIn (strLower p.name) (strLower q)) = none →
        get_player_info st q = Except.ok none) ∧
      (∀ (p : PlayerRow) (ts : List TeamRow),
        ps.find? (fun p2 => strIn (strLower p2.name) (strLower q)) = some p →
        st.teams = Except.ok ts →
        get_player_info st q = Except.ok (some (p.name ++ " juega como " ++ p.position ++
          ", dorsal " ++ toString p.jersey_number ++ ", nacionalidad " ++ p.nationality ++
          ", altura " ++ toString p.height ++ "m, peso " ++ toString p.weight ++
          "kg, equipo " ++
          ((ts.filter (fun t => decide (t.id = p.team_id))).map (fun t => t.name)).headD
            "desconocido" ++ ".")))) ∧
    (∀ (st : Store) (q : String) (ts : List TeamRow),
      st.teams = Except.ok ts →
      (ts.find? (fun t => strIn (normalize t.name) (normalize q)) = none →
        get_team_info st q = Except.ok none) ∧
      (∀ (t : TeamRow) (ss : List StadiumRow),
        ts.find? (fun t2 => strIn (normalize t2.name) (normalize q)) = some t →
        st.stadiums = Except.ok ss →
        get_team_info st q = Except.ok (some ("Equipo " ++ t.name ++ " de " ++ t.city ++
          " (" ++ t.province ++ "), fundado en " ++ toString t.founded_year ++
          ", estadio " ++
          ((ss.filter (fun sd => decide (sd.id = t.stadium_id))).map (fun sd => sd.name)).headD
            "desconocido" ++ ".")))) ∧
    (∀ (q name : String) (c : Char), c ∈ name.data → c ∈ accChars →
      strIn (strLower name) (strLower (normalize q)) = false) := by
  refine ⟨?_, ?_, ?_⟩
  · intro st q ps hps
    constructor
    · intro hfind
      unfold get_player_info
      rw [hps, except_bind_ok]
      rw [hfind]
      rfl
    · intro p ts hfind hts
      unfold get_player_info
      rw [hps, except_bind_ok]
      rw [hfind]
      dsimp only
      have hteam : st.teamNameById p.team_id =
          Except.ok ((ts.filter (fun t => decide (t.id = p.team_id))).map (fun t => t.name)) := by
        unfold Store.teamNameById
        rw [hts]
        rfl
      rw [hteam, except_bind_ok]
      rfl
  · intro st q ts hts
    constructor
    · intro hfind
      unfold get_team_info
      rw [hts, except_bind_ok]
      rw [hfind]
      rfl
    · intro t ss hfind hss
      unfold get_team_info
      rw [hts, except_bind_ok]
      rw [hfind]
      dsimp only
      have hstad : st.stadiumNameById t.stadium_id =
          Except.ok ((ss.filter (fun sd => decide (sd.id = t.stadium_id))).map
            (fun sd => sd.name)) := by
        unfold Store.stadiumNameById
        rw [hss]
        rfl
      rw [hstad, except_bind_ok]
      rfl
  · intro q name c hc hacc
    have hlmem : c ∈ (strLower name).data := by
      unfold strLower
      exact List.mem_map.mpr ⟨c, hc, accChars_lower_fixed c hacc⟩
    rw [strLower_normalize]
    exact strIn_acc_normalize_false hlmem hacc q

def atletiStore : Store :=
  { emptyStore with teams := Except.ok [⟨3, "Atlético", "Madrid", "Madrid", 1903, 4⟩] }

theorem matcher_substring_semantics_witness :
    get_team_info atletiStore (normalize "¿Dónde juega el Atlético?") =
      Except.ok (some
        "Equipo Atlético de Madrid (Madrid), fundado en 1903, estadio desconocido.") := by
  have h := (matcher_substring_semantics.2.1 atletiStore
      (normalize "¿Dónde juega el Atlético?")
      [⟨3, "Atlético", "Madrid", "Madrid", 1903, 4⟩] rfl).2
      ⟨3, "Atlético", "Madrid", "Madrid", 1903, 4⟩ [] (by decide) rfl
  rw [h]
  rfl

end Chatbot
